import Mathlib

/-!
Shallow embedding of the rule-validation core of the `mobily_vrm_uc`
repository (files `src/core/validation_engine.py`,
`src/core/portal_validation.py`, `src/schemas/validation_schemas.py`,
`src/schemas/portal_schemas.py`), together with theorems settling the
frozen claims about it.

Python values flowing through the engine (portal JSON, extracted document
JSON) are modelled by the inductive `Value`; Python `None` is the constructor
`Value.none` (both an absent dictionary key and a stored `None` read back as
`None` through `dict.get`, so lookups return `Value.none` in both cases,
exactly as in the source).  Python exceptions are modelled by
`Except String`; the `try/except` at the dispatcher boundary becomes a
`match` on that `Except`.  `re.match` is an opaque total boolean matcher
passed as a parameter `reMatch`, and `datetime.utcnow().date().year` is the
parameter `nowYear`.
-/

namespace VRM

/-- JSON-ish Python value as handled by the engine. -/
inductive Value where
  | none : Value
  | str (s : String) : Value
  | int (n : Int) : Value
  | bool (b : Bool) : Value
  | list (xs : List Value) : Value
  | dict (kvs : List (String × Value)) : Value

/-- Python truthiness (`bool(v)`). -/
def truthy : Value → Bool
  | .none => false
  | .str s => s ≠ ""
  | .int n => n ≠ 0
  | .bool b => b
  | .list xs => !xs.isEmpty
  | .dict kvs => !kvs.isEmpty

/-- `v is None` in Python. -/
def isNoneVal : Value → Bool
  | .none => true
  | _ => false

/-- `v in (None, "")` in Python (the presence test of the portal field
evaluator). -/
def isEmptyVal : Value → Bool
  | .none => true
  | .str "" => true
  | _ => false

mutual

/-- Python `repr(v)`. -/
def pyRepr : Value → String
  | .none => "None"
  | .str s => "\x27" ++ s ++ "\x27"
  | .int n => toString n
  | .bool b => if b then "True" else "False"
  | .list xs => "[" ++ pyReprList xs ++ "]"
  | .dict kvs => "\x7b" ++ pyReprDict kvs ++ "\x7d"

/-- Comma-separated `repr`s of the elements of a Python list. -/
def pyReprList : List Value → String
  | [] => ""
  | [x] => pyRepr x
  | x :: y :: xs => pyRepr x ++ ", " ++ pyReprList (y :: xs)

/-- Comma-separated `repr`s of the items of a Python dict. -/
def pyReprDict : List (String × Value) → String
  | [] => ""
  | [(k, v)] => "\x27" ++ k ++ "\x27: " ++ pyRepr v
  | (k, v) :: kv :: kvs =>
      "\x27" ++ k ++ "\x27: " ++ pyRepr v ++ ", " ++ pyReprDict (kv :: kvs)

end

/-- Python `str(v)` (strings render bare, containers render their `repr`). -/
def pyStr : Value → String
  | .none => "None"
  | .str s => s
  | .int n => toString n
  | .bool b => if b then "True" else "False"
  | .list xs => "[" ++ pyReprList xs ++ "]"
  | .dict kvs => "\x7b" ++ pyReprDict kvs ++ "\x7d"

/-- `repr` of a Python list of strings (used in engine messages). -/
def pyReprStrList (xs : List String) : String :=
  pyReprList (xs.map Value.str)

/-- A Python dict with string keys. -/
abbrev PyDict := List (String × Value)

/-- `d.get(k)`, distinguishing an absent key (`Option.none`) from a stored
value. -/
def dictGet? (d : PyDict) (k : String) : Option Value :=
  (d.find? (fun kv => kv.1 == k)).map (fun kv => kv.2)

/-- `d.get(k)` as the engine observes it: an absent key reads as `None`. -/
def dictGet (d : PyDict) (k : String) : Value :=
  (dictGet? d k).getD .none

/-- Python `a or b`. -/
def pyOr (a b : Value) : Value :=
  if truthy a then a else b

/-- The whitespace set of Python `str.strip()` (ASCII part). -/
def pyIsSpace (c : Char) : Bool :=
  c = ' ' ∨ c = '\t' ∨ c = '\n' ∨ c = '\r' ∨ c = '\x0b' ∨ c = '\x0c'

/-- Python `s.strip()`. -/
def pyStrip (s : String) : String :=
  String.mk (((s.data.dropWhile pyIsSpace).reverse.dropWhile pyIsSpace).reverse)

/-- Python `s.startswith(pre)`. -/
def pyStartsWith (s pre : String) : Bool :=
  pre.data.isPrefixOf s.data

/-- Split a character list at the first occurrence of a (nonempty)
separator, if it occurs. -/
def splitFirst (sep : List Char) : List Char → Option (List Char × List Char)
  | [] => Option.none
  | c :: rest =>
    if sep.isPrefixOf (c :: rest) then some ([], (c :: rest).drop sep.length)
    else
      match splitFirst sep rest with
      | some (a, b) => some (c :: a, b)
      | Option.none => Option.none

/-- Python `s.split(sep, 1)` when `sep` occurs in `s` (two-element split at
the first occurrence); `Option.none` when it does not occur. -/
def pySplitOnce (s sep : String) : Option (String × String) :=
  match splitFirst sep.data s.data with
  | some (a, b) => some (String.mk a, String.mk b)
  | Option.none => Option.none

/-- Decimal digit value of a character, if any. -/
def digit? (c : Char) : Option Nat :=
  if c.isDigit then some (c.toNat - 48) else Option.none

/-- All-digits decimal value of a nonempty character list, if so shaped. -/
def digitsVal : List Char → Option Nat
  | [] => Option.none
  | cs =>
    if cs.all (fun c => c.isDigit) then
      some (cs.foldl (fun acc c => acc * 10 + (c.toNat - 48)) 0)
    else Option.none

/-- Python type name of a value (used in exception messages). -/
def pyTypeName : Value → String
  | .none => "NoneType"
  | .str _ => "str"
  | .int _ => "int"
  | .bool _ => "bool"
  | .list _ => "list"
  | .dict _ => "dict"

/-- Python `int(v)`: succeeds on ints, bools and integer-shaped strings
(leading/trailing whitespace and an optional sign allowed), raises
otherwise. -/
def pyInt : Value → Except String Int
  | .int n => .ok n
  | .bool b => .ok (if b then 1 else 0)
  | .str s =>
    let t := pyStrip s
    match t.data with
    | '-' :: ds =>
      match digitsVal ds with
      | some n => .ok (-(n : Int))
      | Option.none => .error ("invalid literal for int() with base 10: " ++ pyRepr (.str s))
    | '+' :: ds =>
      match digitsVal ds with
      | some n => .ok (n : Int)
      | Option.none => .error ("invalid literal for int() with base 10: " ++ pyRepr (.str s))
    | ds =>
      match digitsVal ds with
      | some n => .ok (n : Int)
      | Option.none => .error ("invalid literal for int() with base 10: " ++ pyRepr (.str s))
  | v => .error ("int() argument must be a string, a bytes-like object or a real number, not \x27" ++ pyTypeName v ++ "\x27")

/-! ### Date parsing (`datetime.strptime` restricted to the four formats the
engine tries, plus the calendar validity check `datetime.__init__` performs) -/

/-- A Gregorian calendar date. -/
structure Date where
  year : Nat
  month : Nat
  day : Nat
deriving DecidableEq, Repr

/-- Gregorian leap-year test. -/
def isLeap (y : Nat) : Bool :=
  (y % 4 == 0 && y % 100 != 0) || y % 400 == 0

/-- Number of days in a month. -/
def daysInMonth (y m : Nat) : Nat :=
  if m == 2 then (if isLeap y then 29 else 28)
  else if m == 4 || m == 6 || m == 9 || m == 11 then 30
  else 31

/-- The validity check `datetime(year, month, day)` performs (the field
parsers below already bound month to 1..12 and day to 1..31). -/
def mkDate? (y m d : Nat) : Option Date :=
  if 1 ≤ y ∧ 1 ≤ m ∧ m ≤ 12 ∧ 1 ≤ d ∧ d ≤ daysInMonth y m then
    some ⟨y, m, d⟩
  else Option.none

/-- `%Y`: exactly four decimal digits. -/
def parseY : List Char → Option (Nat × List Char)
  | a :: b :: c :: d :: rest =>
    match digit? a, digit? b, digit? c, digit? d with
    | some x, some y, some z, some w => some (x * 1000 + y * 100 + z * 10 + w, rest)
    | _, _, _, _ => Option.none
  | _ => Option.none

/-- `%m`: the alternation `1[0-2] | 0[1-9] | [1-9]`, tried in that order. -/
def parseM : List Char → Option (Nat × List Char)
  | '1' :: c :: rest =>
    if '0' ≤ c ∧ c ≤ '2' then some (10 + (c.toNat - 48), rest)
    else some (1, c :: rest)
  | '0' :: c :: rest =>
    if '1' ≤ c ∧ c ≤ '9' then some (c.toNat - 48, rest)
    else Option.none
  | c :: rest =>
    if '1' ≤ c ∧ c ≤ '9' then some (c.toNat - 48, rest) else Option.none
  | [] => Option.none

/-- `%d`: the alternation `3[01] | [12][0-9] | 0[1-9] | [1-9]`, tried in
that order. -/
def parseD : List Char → Option (Nat × List Char)
  | '3' :: c :: rest =>
    if c = '0' ∨ c = '1' then some (30 + (c.toNat - 48), rest)
    else some (3, c :: rest)
  | '1' :: c :: rest =>
    if c.isDigit then some (10 + (c.toNat - 48), rest)
    else some (1, c :: rest)
  | '2' :: c :: rest =>
    if c.isDigit then some (20 + (c.toNat - 48), rest)
    else some (2, c :: rest)
  | '0' :: c :: rest =>
    if '1' ≤ c ∧ c ≤ '9' then some (c.toNat - 48, rest)
    else Option.none
  | c :: rest =>
    if '1' ≤ c ∧ c ≤ '9' then some (c.toNat - 48, rest) else Option.none
  | [] => Option.none

/-- Consume one expected literal character. -/
def expectChar (c : Char) : List Char → Option (List Char)
  | c2 :: rest => if c2 = c then some rest else Option.none
  | [] => Option.none

/-- The four date formats the engine tries, in source order. -/
inductive DateFmt where
  | ymd       -- "%Y-%m-%d"
  | dmySlash  -- "%d/%m/%Y"
  | dmyDash   -- "%d-%m-%Y"
  | dmyDot    -- "%d.%m.%Y"
deriving DecidableEq, Repr

/-- `datetime.strptime(s, fmt).date()` for one format: field-wise parse, a
no-leftover check, then calendar validation. -/
def parseWithFmt (f : DateFmt) (s : String) : Option Date :=
  match f with
  | .ymd => do
    let (y, r1) ← parseY s.data
    let r2 ← expectChar '-' r1
    let (m, r3) ← parseM r2
    let r4 ← expectChar '-' r3
    let (d, r5) ← parseD r4
    if r5.isEmpty then mkDate? y m d else Option.none
  | .dmySlash => parseDMY '/' s
  | .dmyDash => parseDMY '-' s
  | .dmyDot => parseDMY '.' s
where
  parseDMY (sep : Char) (s : String) : Option Date := do
    let (d, r1) ← parseD s.data
    let r2 ← expectChar sep r1
    let (m, r3) ← parseM r2
    let r4 ← expectChar sep r3
    let (y, r5) ← parseY r4
    if r5.isEmpty then mkDate? y m d else Option.none

/-- The format list from `_parse_date`, in source order. -/
def dateFormats : List DateFmt := [.ymd, .dmySlash, .dmyDash, .dmyDot]

/-- The `for fmt in ...: try ... except ValueError: continue` loop of
`_parse_date`: the first successful format wins. -/
def tryFormats : List DateFmt → String → Option Date
  | [], _ => Option.none
  | f :: fs, v =>
    match parseWithFmt f v with
    | some d => some d
    | Option.none => tryFormats fs v

/-- `ValidationEngine._parse_date`: strip, try the four formats in order,
raise `ValueError` if none parses. -/
def parseDate (value : String) : Except String Date :=
  let v := pyStrip value
  match tryFormats dateFormats v with
  | some d => .ok d
  | Option.none => .error ("Unsupported date format " ++ pyRepr (.str v))

/-! ### Data model (`src/schemas/validation_schemas.py`,
`src/schemas/portal_schemas.py`) -/

/-- `RuleStatus = Literal["PASS", "FAIL", "WARNING", "SKIP"]`. -/
inductive RuleStatus where
  | PASS
  | FAIL
  | WARNING
  | SKIP
deriving DecidableEq, Repr

/-- `Literal["error", "warning"]`. -/
inductive Severity where
  | error
  | warning
deriving DecidableEq, Repr

/-- `Literal["portal", "doc"]`. -/
inductive SourceKind where
  | portal
  | doc
deriving DecidableEq, Repr

/-- `FieldRef`. -/
structure FieldRef where
  source : SourceKind
  field : String
  doc_type : Option String := Option.none
deriving DecidableEq, Repr

/-- `FlagExpectation`. -/
structure FlagExpectation where
  field : String
  expected : Bool
deriving DecidableEq, Repr

/-- `PortalFieldValidation` (the `type` member of the source model is named
`fieldType` here because `type` is reserved in Lean; the engine never reads
it). -/
structure PortalFieldValidation where
  fieldType : String := "string"
  required : Bool := true
  pattern : Option String := Option.none
  allowed_values : Option (List String) := Option.none
  min_length : Option Int := Option.none
  max_length : Option Int := Option.none
  description : Option String := Option.none
deriving DecidableEq, Repr

/-- `CrossSourceRule`.  `rule_type` is a plain string exactly as the
dispatcher treats it (the defensive unknown-type branch of `_apply_rule` is
live in the source). -/
structure CrossSourceRule where
  id : String
  description : String
  severity : Severity := .error
  rule_type : String
  left : Option FieldRef := Option.none
  right : Option FieldRef := Option.none
  target : Option FieldRef := Option.none
  allowed_values : Option (List String) := Option.none
  regex : Option String := Option.none
  year_delta : Option Int := Option.none
  min_pages : Option Int := Option.none
  max_pages : Option Int := Option.none
  flags : Option (List FlagExpectation) := Option.none
deriving DecidableEq, Repr

/-- `RuleResult`; `context : Dict[str, str]` becomes an association list. -/
structure RuleResult where
  rule_id : String
  description : String
  status : RuleStatus
  severity : Severity
  message : String
  context : List (String × String) := []
deriving DecidableEq, Repr

/-- `ValidationConfig`; the field-name-keyed dict keeps its insertion
order as a list. -/
structure ValidationConfig where
  portal_field_validations : List (String × PortalFieldValidation) := []
  cross_source_rules : List CrossSourceRule := []

/-- `ValidationReport`. -/
structure ValidationReport where
  summary_status : RuleStatus
  results : List RuleResult
deriving Repr

/-- `FieldValidationResult` (`src/schemas/portal_schemas.py`). -/
structure FieldValidationResult where
  field_name : String
  value : Option String
  is_valid : Bool
  failure_reason : Option String := Option.none
deriving DecidableEq, Repr

/-! ### The engine (`src/core/validation_engine.py`)

Throughout, `reMatch p s` stands for the truthiness of `re.match(p, s)`
(an opaque total matcher: the claims under verification do not depend on
regex semantics), and `nowYear` for `datetime.utcnow().date().year`. -/

/-- `ValidationEngine._aggregate_status`. -/
def aggregateStatus (results : List RuleResult) : RuleStatus :=
  let has_fail := results.any (fun r => r.status == .FAIL)
  let has_warning := results.any (fun r => r.status == .WARNING)
  if has_fail then .FAIL
  else if has_warning then .WARNING
  else .PASS

/-- The pattern check guard of `_validate_portal_field`: `if cfg.pattern:`
(truthiness, so an empty pattern string disables the check) followed by
`if not re.match(cfg.pattern, value_str):`. -/
def patternFailB (reMatch : String → String → Bool)
    (cfg : PortalFieldValidation) (value_str : String) : Bool :=
  match cfg.pattern with
  | some p => p ≠ "" && !(reMatch p value_str)
  | Option.none => false

/-- The allowed-values guard of `_validate_portal_field`:
`if cfg.allowed_values:` (truthiness, so an empty list disables the check)
followed by `if value_str not in cfg.allowed_values:`. -/
def allowedFailB (cfg : PortalFieldValidation) (value_str : String) : Bool :=
  match cfg.allowed_values with
  | some avs => !avs.isEmpty && !(avs.contains value_str)
  | Option.none => false

/-- The min-length guard of `_validate_portal_field`
(`cfg.min_length is not None and len(value_str) < cfg.min_length`). -/
def minLenFailB (cfg : PortalFieldValidation) (value_str : String) : Bool :=
  match cfg.min_length with
  | some m => decide ((value_str.length : Int) < m)
  | Option.none => false

/-- The max-length guard of `_validate_portal_field`
(`cfg.max_length is not None and len(value_str) > cfg.max_length`). -/
def maxLenFailB (cfg : PortalFieldValidation) (value_str : String) : Bool :=
  match cfg.max_length with
  | some m => decide ((value_str.length : Int) > m)
  | Option.none => false

/-- `ValidationEngine._validate_portal_field`.  The presence test is
Python's `raw_value in (None, "")`; the pattern and allowed-values guards
are Python truthiness tests of the config entries (`if cfg.pattern:`,
`if cfg.allowed_values:`), so an empty pattern string or an empty
allowed-values list disables the check; the length guards are
`is not None` tests. -/
def validatePortalField (reMatch : String → String → Bool)
    (field_name : String) (cfg : PortalFieldValidation) (portal_json : PyDict) :
    Option RuleResult :=
  let raw_value := dictGet portal_json field_name
  if isEmptyVal raw_value then
    if cfg.required then
      some { rule_id := "PORTAL_FIELD_REQUIRED::" ++ field_name,
             description := field_name ++ " is required",
             severity := .error,
             status := .FAIL,
             message := "Field \x27" ++ field_name ++ "\x27 is missing or empty." }
    else Option.none
  else
    let value_str := pyStr raw_value
    if patternFailB reMatch cfg value_str then
      some { rule_id := "PORTAL_FIELD_PATTERN::" ++ field_name,
             description := field_name ++ " must match pattern",
             severity := .error,
             status := .FAIL,
             message := "Field \x27" ++ field_name ++ "\x27 has invalid format: "
               ++ pyRepr (.str value_str) }
    else if allowedFailB cfg value_str then
      some { rule_id := "PORTAL_FIELD_IN_SET::" ++ field_name,
             description := field_name ++ " must be one of allowed values",
             severity := .error,
             status := .FAIL,
             message := "Field \x27" ++ field_name ++ "\x27 has value "
               ++ pyRepr (.str value_str) ++ " not in "
               ++ pyReprStrList (cfg.allowed_values.getD []) }
    else if minLenFailB cfg value_str then
      some { rule_id := "PORTAL_FIELD_MIN_LEN::" ++ field_name,
             description := field_name ++ " must have at least "
               ++ toString (cfg.min_length.getD 0) ++ " characters",
             severity := .error,
             status := .FAIL,
             message := "Field \x27" ++ field_name ++ "\x27 is too short" }
    else if maxLenFailB cfg value_str then
      some { rule_id := "PORTAL_FIELD_MAX_LEN::" ++ field_name,
             description := field_name ++ " must have at most "
               ++ toString (cfg.max_length.getD 0) ++ " characters",
             severity := .error,
             status := .FAIL,
             message := "Field \x27" ++ field_name ++ "\x27 is too long" }
    else
      some { rule_id := "PORTAL_FIELD_OK::" ++ field_name,
             description := field_name ++ " basic validation",
             severity := .warning,
             status := .PASS,
             message := "Field \x27" ++ field_name ++ "\x27 passed basic validation." }

/-- `docs_by_type.get(doc_type, {})`. -/
def lookupDoc (docs_by_type : List (String × PyDict)) (dt : String) : PyDict :=
  ((docs_by_type.find? (fun kv => kv.1 == dt)).map (fun kv => kv.2)).getD []

/-- `ValidationEngine._resolve_field`.  Raises (as `Except.error`) when a
doc-source ref has no truthy `doc_type`, and when a present `fields` entry
is not a dict (the source then calls `.get` on it). -/
def resolveField (ref : FieldRef) (portal_json : PyDict)
    (docs_by_type : List (String × PyDict)) : Except String (Value × String) :=
  match ref.source with
  | .portal => .ok (dictGet portal_json ref.field, "portal." ++ ref.field)
  | .doc =>
    match ref.doc_type with
    | some dt =>
      if dt = "" then .error "doc_type is required for doc source"
      else
        let doc := lookupDoc docs_by_type dt
        match dictGet? doc "fields" with
        | some (.dict fs) => .ok (dictGet fs ref.field, dt ++ "." ++ ref.field)
        | some v =>
          .error ("\x27" ++ pyTypeName v ++ "\x27 object has no attribute \x27get\x27")
        | Option.none => .ok (dictGet doc ref.field, dt ++ "." ++ ref.field)
    | Option.none => .error "doc_type is required for doc source"

/-- `ValidationEngine._rule_equality`. -/
def ruleEquality (rule : CrossSourceRule) (portal_json : PyDict)
    (docs_by_type : List (String × PyDict)) : Except String RuleResult := do
  match rule.left with
  | Option.none => .error ""
  | some l =>
  match rule.right with
  | Option.none => .error ""
  | some r =>
    let (left_val, left_path) ← resolveField l portal_json docs_by_type
    let (right_val, right_path) ← resolveField r portal_json docs_by_type
    if isNoneVal left_val || isNoneVal right_val then
      pure { rule_id := rule.id,
             description := rule.description,
             severity := rule.severity,
             status := .FAIL,
             message := "Missing values: " ++ left_path ++ "=" ++ pyRepr left_val
               ++ ", " ++ right_path ++ "=" ++ pyRepr right_val,
             context := [("left_path", left_path), ("right_path", right_path)] }
    else if pyStrip (pyStr left_val) = pyStrip (pyStr right_val) then
      pure { rule_id := rule.id,
             description := rule.description,
             severity := rule.severity,
             status := .PASS,
             message := "Values match for " ++ left_path ++ " and " ++ right_path,
             context := [("left", pyStr left_val), ("right", pyStr right_val)] }
    else
      pure { rule_id := rule.id,
             description := rule.description,
             severity := rule.severity,
             status := .FAIL,
             message := "Values differ: " ++ left_path ++ "=" ++ pyRepr left_val
               ++ ", " ++ right_path ++ "=" ++ pyRepr right_val,
             context := [("left", pyStr left_val), ("right", pyStr right_val)] }

/-- `ValidationEngine._rule_in_set` (the leading `assert` fails — with an
empty `AssertionError` message — when `target` is absent or
`allowed_values` is absent or empty). -/
def ruleInSet (rule : CrossSourceRule) (portal_json : PyDict)
    (docs_by_type : List (String × PyDict)) : Except String RuleResult := do
  match rule.target with
  | Option.none => .error ""
  | some t =>
  match rule.allowed_values with
  | Option.none => .error ""
  | some avs =>
    if avs.isEmpty then .error ""
    else
      let (value, path) ← resolveField t portal_json docs_by_type
      if isNoneVal value then
        pure { rule_id := rule.id,
               description := rule.description,
               severity := rule.severity,
               status := .FAIL,
               message := "Missing value at " ++ path }
      else
        let value_str := pyStr value
        if avs.contains value_str then
          pure { rule_id := rule.id,
                 description := rule.description,
                 severity := rule.severity,
                 status := .PASS,
                 message := path ++ " value " ++ pyRepr (.str value_str) ++ " is allowed" }
        else
          pure { rule_id := rule.id,
                 description := rule.description,
                 severity := rule.severity,
                 status := .FAIL,
                 message := path ++ " value " ++ pyRepr (.str value_str)
                   ++ " is not in allowed set " ++ pyReprStrList avs }

/-- `ValidationEngine._rule_regex` (missing value is treated as the empty
string; the `assert` fails when `target` or a truthy `regex` is absent). -/
def ruleRegex (reMatch : String → String → Bool) (rule : CrossSourceRule)
    (portal_json : PyDict) (docs_by_type : List (String × PyDict)) :
    Except String RuleResult := do
  match rule.target with
  | Option.none => .error ""
  | some t =>
  match rule.regex with
  | Option.none => .error ""
  | some rgx =>
    if rgx = "" then .error ""
    else
      let (value, path) ← resolveField t portal_json docs_by_type
      let value_str := if isNoneVal value then "" else pyStr value
      if reMatch rgx value_str then
        pure { rule_id := rule.id,
               description := rule.description,
               severity := rule.severity,
               status := .PASS,
               message := path ++ " value matches regex" }
      else
        pure { rule_id := rule.id,
               description := rule.description,
               severity := rule.severity,
               status := .FAIL,
               message := path ++ " value " ++ pyRepr (.str value_str)
                 ++ " does not match regex " ++ pyRepr (.str rgx) }

/-- `ValidationEngine._rule_date_within_year` with
`datetime.utcnow().date().year` supplied as `nowYear`.
`rule.year_delta or 0` coincides with `getD 0` because `0 or 0 = 0`. -/
def ruleDateWithinYear (nowYear : Nat) (rule : CrossSourceRule)
    (portal_json : PyDict) (docs_by_type : List (String × PyDict)) :
    Except String RuleResult := do
  match rule.target with
  | some t =>
    let (value, path) ← resolveField t portal_json docs_by_type
    if !(truthy value) then
      pure { rule_id := rule.id,
             description := rule.description,
             severity := rule.severity,
             status := .FAIL,
             message := path ++ " is missing" }
    else
      let year_delta : Int := rule.year_delta.getD 0
      match parseDate (pyStr value) with
      | .error exc =>
        pure { rule_id := rule.id,
               description := rule.description,
               severity := rule.severity,
               status := .FAIL,
               message := path ++ " date parse error: " ++ exc }
      | .ok dt =>
        let diff_years : Int := |(nowYear : Int) - (dt.year : Int)|
        if diff_years ≤ year_delta then
          pure { rule_id := rule.id,
                 description := rule.description,
                 severity := rule.severity,
                 status := .PASS,
                 message := path ++ " date " ++ isoformat dt ++ " is within "
                   ++ toString year_delta ++ " year(s) of now" }
        else
          pure { rule_id := rule.id,
                 description := rule.description,
                 severity := rule.severity,
                 status := .FAIL,
                 message := path ++ " date " ++ isoformat dt ++ " is older than "
                   ++ toString year_delta ++ " year(s)" }
  | Option.none => .error ""
where
  pad2 (n : Nat) : String := if n < 10 then "0" ++ toString n else toString n
  pad4 (n : Nat) : String :=
    if n < 10 then "000" ++ toString n
    else if n < 100 then "00" ++ toString n
    else if n < 1000 then "0" ++ toString n
    else toString n
  isoformat (d : Date) : String :=
    pad4 d.year ++ "-" ++ pad2 d.month ++ "-" ++ pad2 d.day

/-- The page-count computation of `ValidationEngine._rule_page_count`:
`pages = doc.get("pages") or doc.get("page_count")`, then
`len(pages)` for a list and `int(pages or 0)` otherwise. -/
def pageCountOf (doc : PyDict) : Except String Int :=
  let pages := pyOr (dictGet doc "pages") (dictGet doc "page_count")
  match pages with
  | .list xs => .ok (xs.length : Int)
  | p => pyInt (pyOr p (.int 0))

/-- `ValidationEngine._rule_page_count`.  `min_pages or 0` coincides with
`getD 0`; `max_pages or 10**9` maps both an absent and a zero `max_pages`
to `10^9`. -/
def rulePageCount (rule : CrossSourceRule) (portal_json : PyDict)
    (docs_by_type : List (String × PyDict)) : Except String RuleResult := do
  match rule.target with
  | some t =>
    match t.doc_type with
    | some dt =>
      if dt = "" then .error "page_count_between rule requires target.doc_type"
      else
        let doc := lookupDoc docs_by_type dt
        let page_count ← pageCountOf doc
        let min_pages : Int := rule.min_pages.getD 0
        let max_pages : Int :=
          match rule.max_pages with
          | some m => if m = 0 then 1000000000 else m
          | Option.none => 1000000000
        if min_pages ≤ page_count ∧ page_count ≤ max_pages then
          pure { rule_id := rule.id,
                 description := rule.description,
                 severity := rule.severity,
                 status := .PASS,
                 message := dt ++ " has " ++ toString page_count ++ " pages (within ["
                   ++ toString min_pages ++ ", " ++ toString max_pages ++ "])" }
        else
          pure { rule_id := rule.id,
                 description := rule.description,
                 severity := rule.severity,
                 status := .FAIL,
                 message := dt ++ " has " ++ toString page_count
                   ++ " pages (expected between " ++ toString min_pages
                   ++ " and " ++ toString max_pages ++ ")" }
    | Option.none => .error "page_count_between rule requires target.doc_type"
  | Option.none => .error ""

/-- The mismatch collection loop of `ValidationEngine._rule_flags_match`:
`bool(fields.get(fname)) != expected`. -/
def flagsMismatches (flags : List FlagExpectation) (fields : PyDict) :
    List (String × Bool × Bool) :=
  flags.filterMap (fun flag =>
    let actual := truthy (dictGet fields flag.field)
    if actual ≠ flag.expected then some (flag.field, flag.expected, actual)
    else Option.none)

/-- Rendering of one mismatch in the FAIL message of `_rule_flags_match`. -/
def flagMismatchText (m : String × Bool × Bool) : String :=
  m.1 ++ "=expected " ++ (if m.2.1 then "True" else "False")
    ++ ", got " ++ (if m.2.2 then "True" else "False")

/-- `ValidationEngine._rule_flags_match`. -/
def ruleFlagsMatch (rule : CrossSourceRule) (portal_json : PyDict)
    (docs_by_type : List (String × PyDict)) : Except String RuleResult :=
  match rule.target with
  | Option.none => .error ""
  | some t =>
  match rule.flags with
  | Option.none => .error ""
  | some flags =>
    if flags.isEmpty then .error ""
    else
      match t.doc_type with
      | some dt =>
        if dt = "" then .error "flags_match rule requires target.doc_type"
        else
          let doc := lookupDoc docs_by_type dt
          match dictGet? doc "fields" with
          | some (.dict fs) => .ok (flagsResult rule dt flags fs)
          | some v =>
            .error ("\x27" ++ pyTypeName v ++ "\x27 object has no attribute \x27get\x27")
          | Option.none => .ok (flagsResult rule dt flags doc)
      | Option.none => .error "flags_match rule requires target.doc_type"
where
  flagsResult (rule : CrossSourceRule) (dt : String)
      (flags : List FlagExpectation) (fields : PyDict) : RuleResult :=
    let mismatches := flagsMismatches flags fields
    if mismatches.isEmpty then
      { rule_id := rule.id,
        description := rule.description,
        severity := rule.severity,
        status := .PASS,
        message := "All required flags present for " ++ dt }
    else
      { rule_id := rule.id,
        description := rule.description,
        severity := rule.severity,
        status := .FAIL,
        message := "Flag mismatches for " ++ dt ++ ": "
          ++ String.intercalate ", " (mismatches.map flagMismatchText) }

/-- The dispatch chain of `ValidationEngine._apply_rule`, before its
`try/except`: any exception raised by a rule evaluator surfaces as
`Except.error`. -/
def evalRule (reMatch : String → String → Bool) (nowYear : Nat)
    (rule : CrossSourceRule) (portal_json : PyDict)
    (docs_by_type : List (String × PyDict)) : Except String RuleResult :=
  if rule.rule_type = "equality" then ruleEquality rule portal_json docs_by_type
  else if rule.rule_type = "in_set" then ruleInSet rule portal_json docs_by_type
  else if rule.rule_type = "regex" then ruleRegex reMatch rule portal_json docs_by_type
  else if rule.rule_type = "date_within_year" then
    ruleDateWithinYear nowYear rule portal_json docs_by_type
  else if rule.rule_type = "page_count_between" then
    rulePageCount rule portal_json docs_by_type
  else if rule.rule_type = "flags_match" then
    ruleFlagsMatch rule portal_json docs_by_type
  else
    .ok { rule_id := rule.id,
          description := rule.description,
          severity := rule.severity,
          status := .SKIP,
          message := "Unknown rule_type " ++ pyRepr (.str rule.rule_type) }

/-- `ValidationEngine._apply_rule`, `try/except` included: an exception
becomes a FAIL result carrying the exception message. -/
def applyRule (reMatch : String → String → Bool) (nowYear : Nat)
    (rule : CrossSourceRule) (portal_json : PyDict)
    (docs_by_type : List (String × PyDict)) : RuleResult :=
  match evalRule reMatch nowYear rule portal_json docs_by_type with
  | .ok r => r
  | .error exc =>
    { rule_id := rule.id,
      description := rule.description,
      severity := rule.severity,
      status := .FAIL,
      message := "Exception while applying rule: " ++ exc }

/-- `ValidationEngine.validate`. -/
def validate (reMatch : String → String → Bool) (nowYear : Nat)
    (cfg : ValidationConfig) (portal_json : PyDict)
    (docs_by_type : List (String × PyDict)) : ValidationReport :=
  let portalResults := cfg.portal_field_validations.filterMap
    (fun fv => validatePortalField reMatch fv.1 fv.2 portal_json)
  let crossResults := cfg.cross_source_rules.map
    (fun rule => applyRule reMatch nowYear rule portal_json docs_by_type)
  let results := portalResults ++ crossResults
  { summary_status := aggregateStatus results, results := results }

/-! ### Per-field response mapping (`src/core/portal_validation.py`) -/

/-- `_failure_reason_from_rule_id`: the part of the rule id before the
first `::` (or the whole id when there is none) selects the reason code. -/
def failureReasonFromRuleId (rule_id : String) : String :=
  let pfx := match pySplitOnce rule_id "::" with
    | some (a, _) => a
    | Option.none => rule_id
  if pfx = "PORTAL_FIELD_REQUIRED" then "MISSING_REQUIRED"
  else if pfx = "PORTAL_FIELD_PATTERN" then "PATTERN_MISMATCH"
  else if pfx = "PORTAL_FIELD_IN_SET" then "INVALID_VALUE"
  else if pfx = "PORTAL_FIELD_MIN_LEN" then "MIN_LENGTH"
  else if pfx = "PORTAL_FIELD_MAX_LEN" then "MAX_LENGTH"
  else "GENERIC_FAIL"

/-- The per-result body of the loop in `portal_report_to_field_results`:
which `(field_name, FieldValidationResult)` entry, if any, one
`RuleResult` contributes. -/
def fieldResultOf (portal_json : PyDict) (rule_res : RuleResult) :
    Option (String × FieldValidationResult) :=
  if !(pyStartsWith rule_res.rule_id "PORTAL_FIELD_") then Option.none
  else
    match pySplitOnce rule_res.rule_id "::" with
    | Option.none => Option.none
    | some (_, field_name) =>
      let raw_val := dictGet portal_json field_name
      let value : Option String :=
        if isNoneVal raw_val then Option.none else some (pyStr raw_val)
      if rule_res.status = .PASS then
        some (field_name,
          { field_name := field_name, value := value,
            is_valid := true, failure_reason := Option.none })
      else
        some (field_name,
          { field_name := field_name, value := value,
            is_valid := false,
            failure_reason := some (failureReasonFromRuleId rule_res.rule_id) })

/-- Insertion into the `by_field` dict: a repeated key overwrites in place
(Python dicts keep the first-insertion position), a fresh key appends. -/
def upsert (m : List (String × FieldValidationResult)) (k : String)
    (v : FieldValidationResult) : List (String × FieldValidationResult) :=
  match m with
  | [] => [(k, v)]
  | (k2, v2) :: rest =>
    if k2 = k then (k2, v) :: rest else (k2, v2) :: upsert rest k v

/-- The `by_field` accumulation loop of `portal_report_to_field_results`. -/
def buildByField (portal_json : PyDict) :
    List RuleResult → List (String × FieldValidationResult) →
    List (String × FieldValidationResult)
  | [], acc => acc
  | r :: rs, acc =>
    buildByField portal_json rs
      (match fieldResultOf portal_json r with
       | some (k, v) => upsert acc k v
       | Option.none => acc)

/-- `portal_report_to_field_results`. -/
def portalReportToFieldResults (report : ValidationReport)
    (portal_json : PyDict) : List FieldValidationResult :=
  (buildByField portal_json report.results []).map (fun kv => kv.2)

/-! ## Helper lemmas -/

theorem exceptOkBind {ε α β : Type} (a : α) (f : α → Except ε β) :
    (Except.ok a : Except ε α) >>= f = f a := rfl

theorem exceptPure {ε α : Type} (a : α) : (pure a : Except ε α) = Except.ok a := rfl

theorem exceptBindOk {ε α β : Type} (x : Except ε α) (f : α → Except ε β) (b : β)
    (h : (x >>= f) = .ok b) : ∃ a, x = .ok a ∧ f a = .ok b := by
  cases x with
  | ok a => exact ⟨a, rfl, h⟩
  | error e => exact Except.noConfusion h

theorem validatePortalField_no_warning (reMatch : String → String → Bool)
    (fn : String) (cfg : PortalFieldValidation) (portal : PyDict) (r : RuleResult)
    (h : validatePortalField reMatch fn cfg portal = some r) :
    r.status ≠ .WARNING := by
  by_cases h0 : isEmptyVal (dictGet portal fn) = true
  · by_cases h1 : cfg.required = true
    · simp [validatePortalField, h0, h1] at h
      subst h
      simp
    · simp [validatePortalField, h0, h1] at h
  · by_cases h1 : patternFailB reMatch cfg (pyStr (dictGet portal fn)) = true
    · simp [validatePortalField, h0, h1] at h
      subst h
      simp
    · by_cases h2 : allowedFailB cfg (pyStr (dictGet portal fn)) = true
      · simp [validatePortalField, h0, h1, h2] at h
        subst h
        simp
      · by_cases h3 : minLenFailB cfg (pyStr (dictGet portal fn)) = true
        · simp [validatePortalField, h0, h1, h2, h3] at h
          subst h
          simp
        · by_cases h4 : maxLenFailB cfg (pyStr (dictGet portal fn)) = true
          · simp [validatePortalField, h0, h1, h2, h3, h4] at h
            subst h
            simp
          · simp [validatePortalField, h0, h1, h2, h3, h4] at h
            subst h
            simp

theorem ruleEquality_ok_no_warning (rule : CrossSourceRule) (portal : PyDict)
    (docs : List (String × PyDict)) (r : RuleResult)
    (h : ruleEquality rule portal docs = .ok r) : r.status ≠ .WARNING := by
  unfold ruleEquality at h
  cases hl : rule.left with
  | none => simp [hl] at h
  | some l =>
    cases hr2 : rule.right with
    | none => simp [hl, hr2] at h
    | some rr =>
      simp only [hl, hr2] at h
      obtain ⟨⟨lv, lp⟩, hx, h⟩ := exceptBindOk _ _ _ h
      obtain ⟨⟨rv, rp⟩, hy, h⟩ := exceptBindOk _ _ _ h
      split at h <;> [skip; split at h] <;>
        (rw [exceptPure] at h; cases h; simp)

theorem ruleInSet_ok_no_warning (rule : CrossSourceRule) (portal : PyDict)
    (docs : List (String × PyDict)) (r : RuleResult)
    (h : ruleInSet rule portal docs = .ok r) : r.status ≠ .WARNING := by
  unfold ruleInSet at h
  cases ht : rule.target with
  | none => simp [ht] at h
  | some t =>
    cases ha : rule.allowed_values with
    | none => simp [ht, ha] at h
    | some avs =>
      simp only [ht, ha] at h
      split at h
      · exact Except.noConfusion h
      · obtain ⟨⟨v, path⟩, hx, h⟩ := exceptBindOk _ _ _ h
        split at h <;> [skip; split at h] <;>
          (rw [exceptPure] at h; cases h; simp)

theorem ruleRegex_ok_no_warning (reMatch : String → String → Bool)
    (rule : CrossSourceRule) (portal : PyDict)
    (docs : List (String × PyDict)) (r : RuleResult)
    (h : ruleRegex reMatch rule portal docs = .ok r) : r.status ≠ .WARNING := by
  unfold ruleRegex at h
  cases ht : rule.target with
  | none => simp [ht] at h
  | some t =>
    cases hg : rule.regex with
    | none => simp [ht, hg] at h
    | some rgx =>
      simp only [ht, hg] at h
      split at h
      · exact Except.noConfusion h
      · obtain ⟨⟨v, path⟩, hx, h⟩ := exceptBindOk _ _ _ h
        split at h <;> split at h <;>
          ((try rw [exceptPure] at h); cases h; simp)

theorem ruleDateWithinYear_ok_no_warning (nowYear : Nat)
    (rule : CrossSourceRule) (portal : PyDict)
    (docs : List (String × PyDict)) (r : RuleResult)
    (h : ruleDateWithinYear nowYear rule portal docs = .ok r) :
    r.status ≠ .WARNING := by
  unfold ruleDateWithinYear at h
  cases ht : rule.target with
  | none => simp [ht] at h
  | some t =>
    simp only [ht] at h
    obtain ⟨⟨v, path⟩, hx, h⟩ := exceptBindOk _ _ _ h
    split at h
    · rw [exceptPure] at h; cases h; simp
    · split at h <;> [skip; split at h] <;>
        (rw [exceptPure] at h; cases h; simp)

theorem rulePageCount_ok_no_warning (rule : CrossSourceRule) (portal : PyDict)
    (docs : List (String × PyDict)) (r : RuleResult)
    (h : rulePageCount rule portal docs = .ok r) : r.status ≠ .WARNING := by
  unfold rulePageCount at h
  cases ht : rule.target with
  | none => simp [ht] at h
  | some t =>
    simp only [ht] at h
    cases hdt : t.doc_type with
    | none => simp [hdt] at h
    | some dt =>
      simp only [hdt] at h
      split at h
      · exact Except.noConfusion h
      · obtain ⟨n, hx, h⟩ := exceptBindOk _ _ _ h
        split at h <;> (rw [exceptPure] at h; cases h; simp)

theorem ruleFlagsMatch_ok_no_warning (rule : CrossSourceRule) (portal : PyDict)
    (docs : List (String × PyDict)) (r : RuleResult)
    (h : ruleFlagsMatch rule portal docs = .ok r) : r.status ≠ .WARNING := by
  have hres : ∀ dt flags fields,
      (ruleFlagsMatch.flagsResult rule dt flags fields).status ≠ .WARNING := by
    intro dt flags fields
    by_cases hm : (flagsMismatches flags fields).isEmpty = true <;>
      simp [ruleFlagsMatch.flagsResult, hm]
  unfold ruleFlagsMatch at h
  cases ht : rule.target with
  | none => simp [ht] at h
  | some t =>
    cases hf : rule.flags with
    | none => simp [ht, hf] at h
    | some flags =>
      simp only [ht, hf] at h
      split at h
      · exact Except.noConfusion h
      · cases hdt : t.doc_type with
        | none => simp [hdt] at h
        | some dt =>
          simp only [hdt] at h
          split at h
          · exact Except.noConfusion h
          · split at h
            · cases h; exact hres _ _ _
            · exact Except.noConfusion h
            · cases h; exact hres _ _ _

theorem applyRule_no_warning (reMatch : String → String → Bool) (nowYear : Nat)
    (rule : CrossSourceRule) (portal : PyDict)
    (docs : List (String × PyDict)) :
    (applyRule reMatch nowYear rule portal docs).status ≠ .WARNING := by
  unfold applyRule
  cases h : evalRule reMatch nowYear rule portal docs with
  | error e => simp
  | ok r =>
    simp only []
    unfold evalRule at h
    split at h
    · exact ruleEquality_ok_no_warning _ _ _ _ h
    · split at h
      · exact ruleInSet_ok_no_warning _ _ _ _ h
      · split at h
        · exact ruleRegex_ok_no_warning _ _ _ _ _ h
        · split at h
          · exact ruleDateWithinYear_ok_no_warning _ _ _ _ _ h
          · split at h
            · exact rulePageCount_ok_no_warning _ _ _ _ h
            · split at h
              · exact ruleFlagsMatch_ok_no_warning _ _ _ _ h
              · cases h; simp

theorem mem_upsert (m : List (String × FieldValidationResult)) (k : String)
    (v : FieldValidationResult) (x : String × FieldValidationResult)
    (hx : x ∈ upsert m k v) : x ∈ m ∨ x = (k, v) := by
  induction m with
  | nil =>
    simp [upsert] at hx
    simp [hx]
  | cons kv rest ih =>
    obtain ⟨k2, v2⟩ := kv
    by_cases hk : k2 = k
    · subst hk
      simp [upsert] at hx
      rcases hx with hx | hx
      · right; simp [hx]
      · left; exact List.mem_cons_of_mem _ hx
    · simp [upsert, hk] at hx
      rcases hx with hx | hx
      · left; simp [hx]
      · rcases ih hx with h2 | h2
        · left; exact List.mem_cons_of_mem _ h2
        · right; exact h2

theorem mem_buildByField (portal_json : PyDict) (results : List RuleResult)
    (acc : List (String × FieldValidationResult))
    (x : String × FieldValidationResult)
    (hx : x ∈ buildByField portal_json results acc) :
    x ∈ acc ∨ ∃ r ∈ results, fieldResultOf portal_json r = some x := by
  induction results generalizing acc with
  | nil =>
    left
    simpa [buildByField] using hx
  | cons r rs ih =>
    rw [buildByField] at hx
    cases hfr : fieldResultOf portal_json r with
    | none =>
      simp only [hfr] at hx
      rcases ih _ hx with h | ⟨r2, hr2, he⟩
      · left; exact h
      · right; exact ⟨r2, List.mem_cons_of_mem _ hr2, he⟩
    | some kv =>
      obtain ⟨k, v⟩ := kv
      simp only [hfr] at hx
      rcases ih _ hx with h | ⟨r2, hr2, he⟩
      · rcases mem_upsert _ _ _ _ h with h2 | h2
        · left; exact h2
        · right
          refine ⟨r, List.mem_cons_self _ _, ?_⟩
          rw [hfr, h2]
      · right; exact ⟨r2, List.mem_cons_of_mem _ hr2, he⟩

theorem buildByField_filter (portal_json : PyDict) (results : List RuleResult)
    (acc : List (String × FieldValidationResult)) :
    buildByField portal_json results acc =
      buildByField portal_json
        (results.filter (fun r => pyStartsWith r.rule_id "PORTAL_FIELD_")) acc := by
  induction results generalizing acc with
  | nil => rfl
  | cons r rs ih =>
    by_cases hp : pyStartsWith r.rule_id "PORTAL_FIELD_" = true
    · simp only [buildByField, List.filter_cons, hp, if_true]
      exact ih _
    · have hp2 : pyStartsWith r.rule_id "PORTAL_FIELD_" = false :=
        eq_false_of_ne_true hp
      have hfr : fieldResultOf portal_json r = Option.none := by
        simp [fieldResultOf, hp2]
      simp only [buildByField, List.filter_cons, hp2, Bool.false_eq_true,
        if_false, hfr]
      exact ih _

theorem fieldResultOf_spec (portal_json : PyDict) (res : RuleResult)
    (k : String) (fr : FieldValidationResult)
    (h : fieldResultOf portal_json res = some (k, fr)) :
    pyStartsWith res.rule_id "PORTAL_FIELD_" = true ∧
    fr.field_name = k ∧
    (res.status = .PASS → fr.is_valid = true ∧ fr.failure_reason = Option.none) ∧
    (res.status ≠ .PASS → fr.is_valid = false ∧
      fr.failure_reason = some (failureReasonFromRuleId res.rule_id)) := by
  unfold fieldResultOf at h
  by_cases hp : pyStartsWith res.rule_id "PORTAL_FIELD_" = true
  · refine ⟨hp, ?_⟩
    simp only [hp, Bool.not_true, Bool.false_eq_true, if_false] at h
    cases hs : pySplitOnce res.rule_id "::" with
    | none => simp [hs] at h
    | some ab =>
      obtain ⟨a, fname⟩ := ab
      simp only [hs] at h
      by_cases hst : res.status = .PASS
      · simp only [hst, if_true, if_pos rfl, Option.some.injEq,
          Prod.mk.injEq] at h
        obtain ⟨hk, hfr⟩ := h
        subst hk
        refine ⟨by rw [← hfr], ?_, ?_⟩
        · intro _
          rw [← hfr]
          exact ⟨rfl, rfl⟩
        · intro hcon
          exact absurd hst hcon
      · rw [if_neg hst] at h
        simp only [Option.some.injEq, Prod.mk.injEq] at h
        obtain ⟨hk, hfr⟩ := h
        subst hk
        refine ⟨by rw [← hfr], ?_, ?_⟩
        · intro hcon
          exact absurd hcon hst
        · intro _
          rw [← hfr]
          exact ⟨rfl, rfl⟩
  · have hp2 : pyStartsWith res.rule_id "PORTAL_FIELD_" = false :=
      eq_false_of_ne_true hp
    simp [hp2] at h

theorem isPrefixOf_self_append (l b : List Char) :
    l.isPrefixOf (l ++ b) = true := by
  induction l with
  | nil => simp
  | cons x xs ih => simp [List.isPrefixOf, List.cons_append, ih]

theorem splitFirst_append (c0 : Char) (sep2 a b : List Char) (hnotin : c0 ∉ a) :
    splitFirst (c0 :: sep2) (a ++ ((c0 :: sep2) ++ b)) = some (a, b) := by
  induction a with
  | nil =>
    simp only [List.nil_append]
    rw [show (c0 :: sep2) ++ b = c0 :: (sep2 ++ b) from rfl, splitFirst]
    rw [show (c0 :: (sep2 ++ b)) = (c0 :: sep2) ++ b from rfl]
    simp [isPrefixOf_self_append, List.drop_left]
  | cons x a2 ih =>
    rw [List.mem_cons, not_or] at hnotin
    obtain ⟨hne, hnotin2⟩ := hnotin
    have hxc : (c0 == x) = false := beq_eq_false_iff_ne.mpr hne
    rw [show (x :: a2) ++ ((c0 :: sep2) ++ b) = x :: (a2 ++ ((c0 :: sep2) ++ b)) from rfl,
      splitFirst]
    have hpre : (c0 :: sep2).isPrefixOf (x :: (a2 ++ ((c0 :: sep2) ++ b))) = false := by
      simp [List.isPrefixOf, hxc]
    rw [hpre]
    simp only [Bool.false_eq_true, if_false]
    rw [ih hnotin2]

theorem pySplitOnce_prefix (pfx fld : String) (h : ':' ∉ pfx.data) :
    pySplitOnce (pfx ++ "::" ++ fld) "::" = some (pfx, fld) := by
  unfold pySplitOnce
  have hdata : (pfx ++ "::" ++ fld).data = pfx.data ++ ((':' :: [':']) ++ fld.data) := by
    simp [String.data_append]
  rw [show ("::" : String).data = ':' :: [':'] from rfl, hdata,
    splitFirst_append ':' [':'] pfx.data fld.data h]

theorem aggregateStatus_ne_SKIP (results : List RuleResult) :
    aggregateStatus results ≠ .SKIP := by
  by_cases h1 : results.any (fun r => r.status == RuleStatus.FAIL) = true <;>
    by_cases h2 : results.any (fun r => r.status == RuleStatus.WARNING) = true <;>
    simp [aggregateStatus, h1, h2]

theorem aggregateStatus_cases (results : List RuleResult) :
    (aggregateStatus results = .FAIL ↔ ∃ r ∈ results, r.status = .FAIL) ∧
    (aggregateStatus results = .WARNING ↔
      (¬ ∃ r ∈ results, r.status = .FAIL) ∧ ∃ r ∈ results, r.status = .WARNING) ∧
    (aggregateStatus results = .PASS ↔
      (¬ ∃ r ∈ results, r.status = .FAIL) ∧ ¬ ∃ r ∈ results, r.status = .WARNING) := by
  have hf : (results.any (fun r => r.status == .FAIL) = true) ↔
      ∃ r ∈ results, r.status = .FAIL := by
    simp [List.any_eq_true]
  have hw : (results.any (fun r => r.status == .WARNING) = true) ↔
      ∃ r ∈ results, r.status = .WARNING := by
    simp [List.any_eq_true]
  by_cases h1 : results.any (fun r => r.status == .FAIL) = true
  · simp [aggregateStatus, h1, hf.mp h1]
  · have h1f := eq_false_of_ne_true h1
    by_cases h2 : results.any (fun r => r.status == .WARNING) = true
    · simp [aggregateStatus, h1f, h2, hf.symm, hw.mp h2]
    · have h2f := eq_false_of_ne_true h2
      simp [aggregateStatus, h1f, h2f, hf.symm, hw.symm]

theorem patternFailB_iff (reMatch : String → String → Bool)
    (cfg : PortalFieldValidation) (vs : String) :
    patternFailB reMatch cfg vs = true ↔
      ∃ p, cfg.pattern = some p ∧ p ≠ "" ∧ reMatch p vs = false := by
  unfold patternFailB
  cases h : cfg.pattern <;> simp

theorem allowedFailB_iff (cfg : PortalFieldValidation) (vs : String) :
    allowedFailB cfg vs = true ↔
      ∃ avs, cfg.allowed_values = some avs ∧ avs ≠ [] ∧ vs ∉ avs := by
  unfold allowedFailB
  cases h : cfg.allowed_values with
  | none => simp
  | some avs => simp [List.isEmpty_iff]

theorem minLenFailB_iff (cfg : PortalFieldValidation) (vs : String) :
    minLenFailB cfg vs = true ↔
      ∃ m, cfg.min_length = some m ∧ (vs.length : Int) < m := by
  unfold minLenFailB
  cases h : cfg.min_length <;> simp

theorem maxLenFailB_iff (cfg : PortalFieldValidation) (vs : String) :
    maxLenFailB cfg vs = true ↔
      ∃ m, cfg.max_length = some m ∧ (vs.length : Int) > m := by
  unfold maxLenFailB
  cases h : cfg.max_length <;> simp

/-! ## Claims -/

/-- C1: for every list of `RuleResult`s produced by `validate()`, the
report's summary status is FAIL if at least one result has status FAIL,
otherwise WARNING if at least one result has status WARNING, otherwise
PASS. -/
theorem C1_summary_status_aggregation (reMatch : String → String → Bool)
    (nowYear : Nat) (cfg : ValidationConfig) (portal_json : PyDict)
    (docs_by_type : List (String × PyDict)) :
    ((validate reMatch nowYear cfg portal_json docs_by_type).summary_status = .FAIL ↔
      ∃ r ∈ (validate reMatch nowYear cfg portal_json docs_by_type).results,
        r.status = .FAIL) ∧
    ((validate reMatch nowYear cfg portal_json docs_by_type).summary_status = .WARNING ↔
      (¬ ∃ r ∈ (validate reMatch nowYear cfg portal_json docs_by_type).results,
        r.status = .FAIL) ∧
      ∃ r ∈ (validate reMatch nowYear cfg portal_json docs_by_type).results,
        r.status = .WARNING) ∧
    ((validate reMatch nowYear cfg portal_json docs_by_type).summary_status = .PASS ↔
      (¬ ∃ r ∈ (validate reMatch nowYear cfg portal_json docs_by_type).results,
        r.status = .FAIL) ∧
      ¬ ∃ r ∈ (validate reMatch nowYear cfg portal_json docs_by_type).results,
        r.status = .WARNING) :=
  aggregateStatus_cases _

/-- Witness for C1 at a concrete run: one required-but-missing portal
field makes the summary FAIL, and the FAIL summary is equivalent to the
existence of a FAIL result. -/
theorem C1_summary_status_aggregation_witness :
    ((validate (fun _ _ => true) 2025
        { portal_field_validations := [("email", { required := true })] }
        [] []).summary_status = .FAIL ↔
      ∃ r ∈ (validate (fun _ _ => true) 2025
        { portal_field_validations := [("email", { required := true })] }
        [] []).results, r.status = .FAIL) ∧
    (validate (fun _ _ => true) 2025
        { portal_field_validations := [("email", { required := true })] }
        [] []).summary_status = .FAIL :=
  ⟨(C1_summary_status_aggregation (fun _ _ => true) 2025
      { portal_field_validations := [("email", { required := true })] }
      [] []).1,
   rfl⟩

/-- C7: a portal field configured `required=false` whose raw value is
absent (`None`) or the empty string yields no `RuleResult` at all, while
`required=true` under the same condition yields exactly one FAIL with
rule id `PORTAL_FIELD_REQUIRED::<field>` and severity error. -/
theorem C7_not_required_empty_silent (reMatch : String → String → Bool)
    (field_name : String) (cfg : PortalFieldValidation) (portal_json : PyDict)
    (h : isEmptyVal (dictGet portal_json field_name) = true) :
    (cfg.required = false →
      validatePortalField reMatch field_name cfg portal_json = Option.none) ∧
    (cfg.required = true →
      validatePortalField reMatch field_name cfg portal_json =
        some { rule_id := "PORTAL_FIELD_REQUIRED::" ++ field_name,
               description := field_name ++ " is required",
               severity := .error,
               status := .FAIL,
               message := "Field \x27" ++ field_name ++ "\x27 is missing or empty." }) := by
  constructor <;> intro hr <;> simp [validatePortalField, h, hr]

/-- Witness for C7 at concrete inputs: an optional empty field is silent,
a required missing field fails. -/
theorem C7_not_required_empty_silent_witness :
    validatePortalField (fun _ _ => true) "email"
      { required := false } [("email", .str "")] = Option.none ∧
    validatePortalField (fun _ _ => true) "email"
      { required := true } [] =
      some { rule_id := "PORTAL_FIELD_REQUIRED::" ++ "email",
             description := "email" ++ " is required",
             severity := .error,
             status := .FAIL,
             message := "Field \x27" ++ "email" ++ "\x27 is missing or empty." } :=
  ⟨(C7_not_required_empty_silent (fun _ _ => true) "email"
      { required := false } [("email", .str "")] rfl).1 rfl,
   (C7_not_required_empty_silent (fun _ _ => true) "email"
      { required := true } [] rfl).2 rfl⟩

/-- C3: for a present, non-empty portal field value, the checks run in the
fixed precedence pattern, allowed values, min length, max length, stopping
at the first failing check (each emitting its single FAIL result); if all
configured checks pass, exactly one PASS result is emitted with rule id
`PORTAL_FIELD_OK::<field>` and severity fixed to warning, whatever the
configuration says. -/
theorem C3_portal_field_check_precedence (reMatch : String → String → Bool)
    (field_name vs : String) (cfg : PortalFieldValidation) (portal_json : PyDict)
    (hpresent : isEmptyVal (dictGet portal_json field_name) = false)
    (hvs : vs = pyStr (dictGet portal_json field_name)) :
    (∀ p, cfg.pattern = some p → p ≠ "" → reMatch p vs = false →
      validatePortalField reMatch field_name cfg portal_json =
        some { rule_id := "PORTAL_FIELD_PATTERN::" ++ field_name,
               description := field_name ++ " must match pattern",
               severity := .error,
               status := .FAIL,
               message := "Field \x27" ++ field_name ++ "\x27 has invalid format: "
                 ++ pyRepr (.str vs) }) ∧
    (patternFailB reMatch cfg vs = false →
      ∀ avs, cfg.allowed_values = some avs → avs ≠ [] → vs ∉ avs →
      validatePortalField reMatch field_name cfg portal_json =
        some { rule_id := "PORTAL_FIELD_IN_SET::" ++ field_name,
               description := field_name ++ " must be one of allowed values",
               severity := .error,
               status := .FAIL,
               message := "Field \x27" ++ field_name ++ "\x27 has value "
                 ++ pyRepr (.str vs) ++ " not in " ++ pyReprStrList avs }) ∧
    (patternFailB reMatch cfg vs = false → allowedFailB cfg vs = false →
      ∀ m, cfg.min_length = some m → (vs.length : Int) < m →
      validatePortalField reMatch field_name cfg portal_json =
        some { rule_id := "PORTAL_FIELD_MIN_LEN::" ++ field_name,
               description := field_name ++ " must have at least "
                 ++ toString m ++ " characters",
               severity := .error,
               status := .FAIL,
               message := "Field \x27" ++ field_name ++ "\x27 is too short" }) ∧
    (patternFailB reMatch cfg vs = false → allowedFailB cfg vs = false →
      minLenFailB cfg vs = false →
      ∀ m, cfg.max_length = some m → (vs.length : Int) > m →
      validatePortalField reMatch field_name cfg portal_json =
        some { rule_id := "PORTAL_FIELD_MAX_LEN::" ++ field_name,
               description := field_name ++ " must have at most "
                 ++ toString m ++ " characters",
               severity := .error,
               status := .FAIL,
               message := "Field \x27" ++ field_name ++ "\x27 is too long" }) ∧
    (patternFailB reMatch cfg vs = false → allowedFailB cfg vs = false →
      minLenFailB cfg vs = false → maxLenFailB cfg vs = false →
      validatePortalField reMatch field_name cfg portal_json =
        some { rule_id := "PORTAL_FIELD_OK::" ++ field_name,
               description := field_name ++ " basic validation",
               severity := .warning,
               status := .PASS,
               message := "Field \x27" ++ field_name
                 ++ "\x27 passed basic validation." }) := by
  refine ⟨?_, ?_, ?_, ?_, ?_⟩
  · intro p hp hne hm
    have hb : patternFailB reMatch cfg vs = true :=
      (patternFailB_iff reMatch cfg vs).mpr ⟨p, hp, hne, hm⟩
    simp [validatePortalField, hpresent, ← hvs, hb]
  · intro hb1 avs ha hne hnotin
    have hb2 : allowedFailB cfg vs = true :=
      (allowedFailB_iff cfg vs).mpr ⟨avs, ha, hne, hnotin⟩
    simp [validatePortalField, hpresent, ← hvs, hb1, hb2, ha]
  · intro hb1 hb2 m hm hlt
    have hb3 : minLenFailB cfg vs = true :=
      (minLenFailB_iff cfg vs).mpr ⟨m, hm, hlt⟩
    simp [validatePortalField, hpresent, ← hvs, hb1, hb2, hb3, hm]
  · intro hb1 hb2 hb3 m hm hgt
    have hb4 : maxLenFailB cfg vs = true :=
      (maxLenFailB_iff cfg vs).mpr ⟨m, hm, hgt⟩
    simp [validatePortalField, hpresent, ← hvs, hb1, hb2, hb3, hb4, hm]
  · intro hb1 hb2 hb3 hb4
    simp [validatePortalField, hpresent, ← hvs, hb1, hb2, hb3, hb4]

/-- Witness for C3 at concrete inputs: a failing pattern check
short-circuits even though a min-length check would also fail, and a field
passing all configured checks yields the PASS result with severity
warning. -/
theorem C3_portal_field_check_precedence_witness :
    validatePortalField (fun p s => p.data.isPrefixOf s.data) "email"
      { pattern := some "x", min_length := some 100 }
      [("email", .str "not-an-email")] =
      some { rule_id := "PORTAL_FIELD_PATTERN::" ++ "email",
             description := "email" ++ " must match pattern",
             severity := .error,
             status := .FAIL,
             message := "Field \x27" ++ "email" ++ "\x27 has invalid format: "
               ++ pyRepr (.str "not-an-email") } ∧
    validatePortalField (fun p s => p.data.isPrefixOf s.data) "email"
      { pattern := some "a", min_length := some 2 }
      [("email", .str "a@b.com")] =
      some { rule_id := "PORTAL_FIELD_OK::" ++ "email",
             description := "email" ++ " basic validation",
             severity := .warning,
             status := .PASS,
             message := "Field \x27" ++ "email"
               ++ "\x27 passed basic validation." } :=
  ⟨(C3_portal_field_check_precedence (fun p s => p.data.isPrefixOf s.data) "email"
      "not-an-email" { pattern := some "x", min_length := some 100 }
      [("email", .str "not-an-email")] rfl rfl).1 "x" rfl (by decide) (by decide),
   (C3_portal_field_check_precedence (fun p s => p.data.isPrefixOf s.data) "email"
      "a@b.com" { pattern := some "a", min_length := some 2 }
      [("email", .str "a@b.com")] rfl rfl).2.2.2.2 (by decide) (by decide)
      (by decide) (by decide)⟩

/-- C5: for an equality rule with both field refs present and resolvable,
a missing (`None`) value on either side gives FAIL with both resolved
paths in the context; otherwise the result is PASS exactly when the
trimmed string forms of the two values are equal, and FAIL otherwise, the
context carrying both string values. -/
theorem C5_equality_rule (reMatch : String → String → Bool) (nowYear : Nat)
    (rule : CrossSourceRule) (portal_json : PyDict)
    (docs_by_type : List (String × PyDict)) (l r : FieldRef)
    (lv rv : Value) (lp rp : String)
    (htype : rule.rule_type = "equality")
    (hl : rule.left = some l) (hr : rule.right = some r)
    (hL : resolveField l portal_json docs_by_type = .ok (lv, lp))
    (hR : resolveField r portal_json docs_by_type = .ok (rv, rp)) :
    ((isNoneVal lv || isNoneVal rv) = true →
      applyRule reMatch nowYear rule portal_json docs_by_type =
        { rule_id := rule.id, description := rule.description,
          severity := rule.severity, status := .FAIL,
          message := "Missing values: " ++ lp ++ "=" ++ pyRepr lv ++ ", "
            ++ rp ++ "=" ++ pyRepr rv,
          context := [("left_path", lp), ("right_path", rp)] }) ∧
    ((isNoneVal lv || isNoneVal rv) = false →
      applyRule reMatch nowYear rule portal_json docs_by_type =
        (if pyStrip (pyStr lv) = pyStrip (pyStr rv) then
          { rule_id := rule.id, description := rule.description,
            severity := rule.severity, status := .PASS,
            message := "Values match for " ++ lp ++ " and " ++ rp,
            context := [("left", pyStr lv), ("right", pyStr rv)] }
         else
          { rule_id := rule.id, description := rule.description,
            severity := rule.severity, status := .FAIL,
            message := "Values differ: " ++ lp ++ "=" ++ pyRepr lv ++ ", "
              ++ rp ++ "=" ++ pyRepr rv,
            context := [("left", pyStr lv), ("right", pyStr rv)] })) := by
  constructor <;> intro hnone
  · simp only [Bool.or_eq_true] at hnone
    cases hnone with
    | inl h1 =>
      simp [applyRule, evalRule, htype, ruleEquality, hl, hr, hL, hR,
        exceptOkBind, exceptPure, h1]
    | inr h1 =>
      simp [applyRule, evalRule, htype, ruleEquality, hl, hr, hL, hR,
        exceptOkBind, exceptPure, h1]
  · simp only [Bool.or_eq_false_iff] at hnone
    obtain ⟨h1, h2⟩ := hnone
    by_cases hc : pyStrip (pyStr lv) = pyStrip (pyStr rv) <;>
      simp [applyRule, evalRule, htype, ruleEquality, hl, hr, hL, hR,
        exceptOkBind, exceptPure, h1, h2, hc]

/-- Witness for C5 at the concrete inputs of the spec's Scenario D:
portal `"123"` equals document `" 123 "` after trimming, so the rule
PASSES. -/
theorem C5_equality_rule_witness :
    applyRule (fun _ _ => false) 2025
      { id := "EQ1", description := "cr numbers match", rule_type := "equality",
        left := some { source := .portal, field := "cr_number" },
        right := some { source := .doc, field := "cr_number",
                        doc_type := some "moc_certificate" } }
      [("cr_number", .str "123")]
      [("moc_certificate", [("fields", .dict [("cr_number", .str " 123 ")])])] =
      { rule_id := "EQ1", description := "cr numbers match",
        severity := .error, status := .PASS,
        message := "Values match for " ++ "portal.cr_number" ++ " and "
          ++ "moc_certificate.cr_number",
        context := [("left", "123"), ("right", " 123 ")] } := by
  have h := (C5_equality_rule (fun _ _ => false) 2025
      { id := "EQ1", description := "cr numbers match", rule_type := "equality",
        left := some { source := .portal, field := "cr_number" },
        right := some { source := .doc, field := "cr_number",
                        doc_type := some "moc_certificate" } }
      [("cr_number", .str "123")]
      [("moc_certificate", [("fields", .dict [("cr_number", .str " 123 ")])])]
      { source := .portal, field := "cr_number" }
      { source := .doc, field := "cr_number", doc_type := some "moc_certificate" }
      (.str "123") (.str " 123 ") "portal.cr_number" "moc_certificate.cr_number"
      rfl rfl rfl rfl rfl).2 rfl
  rw [h]
  rfl

/-- C2: for every cross-source rule, however malformed, the dispatcher
returns exactly one `RuleResult` and never raises: an exception raised
during evaluation (`evalRule = .error msg`) becomes a FAIL result carrying
the exception's message, and the rule's single result still appears in the
report of any run whose configuration contains the rule. -/
theorem C2_dispatcher_fault_isolation (reMatch : String → String → Bool)
    (nowYear : Nat) (rule : CrossSourceRule) (portal_json : PyDict)
    (docs_by_type : List (String × PyDict)) (msg : String)
    (herr : evalRule reMatch nowYear rule portal_json docs_by_type = .error msg) :
    applyRule reMatch nowYear rule portal_json docs_by_type =
      { rule_id := rule.id, description := rule.description,
        severity := rule.severity, status := .FAIL,
        message := "Exception while applying rule: " ++ msg } ∧
    ∀ cfg : ValidationConfig, rule ∈ cfg.cross_source_rules →
      applyRule reMatch nowYear rule portal_json docs_by_type ∈
        (validate reMatch nowYear cfg portal_json docs_by_type).results := by
  constructor
  · simp [applyRule, herr]
  · intro cfg hmem
    exact List.mem_append_right _ (List.mem_map_of_mem _ hmem)

/-- Witness for C2 at a concrete malformed payload: an equality rule with
no `left`/`right` refs makes its evaluator raise (an assertion error with
empty message), and the dispatcher turns that into a FAIL result that
still shows up in the run's report. -/
theorem C2_dispatcher_fault_isolation_witness :
    evalRule (fun _ _ => false) 2025
      { id := "BAD", description := "broken equality rule",
        rule_type := "equality" } [] [] = .error "" ∧
    applyRule (fun _ _ => false) 2025
      { id := "BAD", description := "broken equality rule",
        rule_type := "equality" } [] [] =
      { rule_id := "BAD", description := "broken equality rule",
        severity := .error, status := .FAIL,
        message := "Exception while applying rule: " ++ "" } ∧
    applyRule (fun _ _ => false) 2025
      { id := "BAD", description := "broken equality rule",
        rule_type := "equality" } [] [] ∈
      (validate (fun _ _ => false) 2025
        { cross_source_rules :=
            [{ id := "BAD", description := "broken equality rule",
               rule_type := "equality" }] } [] []).results :=
  ⟨rfl,
   (C2_dispatcher_fault_isolation (fun _ _ => false) 2025
      { id := "BAD", description := "broken equality rule",
        rule_type := "equality" } [] [] "" rfl).1,
   (C2_dispatcher_fault_isolation (fun _ _ => false) 2025
      { id := "BAD", description := "broken equality rule",
        rule_type := "equality" } [] [] "" rfl).2
     { cross_source_rules :=
         [{ id := "BAD", description := "broken equality rule",
            rule_type := "equality" }] }
     (List.mem_singleton.mpr rfl)⟩

/-- C6: for a date_within_year rule with a resolvable target, a falsy
("missing") value FAILs; otherwise the stringified value is parsed trying
the formats `YYYY-MM-DD`, `DD/MM/YYYY`, `DD-MM-YYYY`, `DD.MM.YYYY` in that
order, the first success winning; no parse gives FAIL with a parse-error
message, and a parsed date gives PASS exactly when
`|currentYear - parsedYear| <= yearDelta` (`yearDelta` defaulting to 0). -/
theorem C6_date_within_year_rule (reMatch : String → String → Bool)
    (nowYear : Nat) (rule : CrossSourceRule) (portal_json : PyDict)
    (docs_by_type : List (String × PyDict)) (t : FieldRef)
    (v : Value) (path : String)
    (htype : rule.rule_type = "date_within_year")
    (ht : rule.target = some t)
    (hres : resolveField t portal_json docs_by_type = .ok (v, path)) :
    (truthy v = false →
      applyRule reMatch nowYear rule portal_json docs_by_type =
        { rule_id := rule.id, description := rule.description,
          severity := rule.severity, status := .FAIL,
          message := path ++ " is missing" }) ∧
    (truthy v = true → ∀ e, parseDate (pyStr v) = .error e →
      applyRule reMatch nowYear rule portal_json docs_by_type =
        { rule_id := rule.id, description := rule.description,
          severity := rule.severity, status := .FAIL,
          message := path ++ " date parse error: " ++ e }) ∧
    (truthy v = true → ∀ d, parseDate (pyStr v) = .ok d →
      (applyRule reMatch nowYear rule portal_json docs_by_type).status =
        (if |(nowYear : Int) - (d.year : Int)| ≤ rule.year_delta.getD 0
         then .PASS else .FAIL)) ∧
    (∀ s d, parseWithFmt .ymd (pyStrip s) = some d → parseDate s = .ok d) ∧
    (∀ s d, parseWithFmt .ymd (pyStrip s) = Option.none →
      parseWithFmt .dmySlash (pyStrip s) = some d → parseDate s = .ok d) ∧
    (∀ s d, parseWithFmt .ymd (pyStrip s) = Option.none →
      parseWithFmt .dmySlash (pyStrip s) = Option.none →
      parseWithFmt .dmyDash (pyStrip s) = some d → parseDate s = .ok d) ∧
    (∀ s d, parseWithFmt .ymd (pyStrip s) = Option.none →
      parseWithFmt .dmySlash (pyStrip s) = Option.none →
      parseWithFmt .dmyDash (pyStrip s) = Option.none →
      parseWithFmt .dmyDot (pyStrip s) = some d → parseDate s = .ok d) ∧
    (∀ s, parseWithFmt .ymd (pyStrip s) = Option.none →
      parseWithFmt .dmySlash (pyStrip s) = Option.none →
      parseWithFmt .dmyDash (pyStrip s) = Option.none →
      parseWithFmt .dmyDot (pyStrip s) = Option.none →
      parseDate s = .error ("Unsupported date format " ++ pyRepr (.str (pyStrip s)))) := by
  refine ⟨?_, ?_, ?_, ?_, ?_, ?_, ?_, ?_⟩
  · intro hv
    simp [applyRule, evalRule, htype, ruleDateWithinYear, ht, hres, hv,
      exceptOkBind, exceptPure]
  · intro hv e he
    simp [applyRule, evalRule, htype, ruleDateWithinYear, ht, hres, hv, he,
      exceptOkBind, exceptPure]
  · intro hv d hd
    by_cases hcmp : |(nowYear : Int) - (d.year : Int)| ≤ rule.year_delta.getD 0 <;>
      simp [applyRule, evalRule, htype, ruleDateWithinYear, ht, hres, hv, hd,
        hcmp, exceptOkBind, exceptPure]
  · intro s d h1
    simp [parseDate, tryFormats, dateFormats, h1]
  · intro s d h1 h2
    simp [parseDate, tryFormats, dateFormats, h1, h2]
  · intro s d h1 h2 h3
    simp [parseDate, tryFormats, dateFormats, h1, h2, h3]
  · intro s d h1 h2 h3 h4
    simp [parseDate, tryFormats, dateFormats, h1, h2, h3, h4]
  · intro s h1 h2 h3 h4
    simp [parseDate, tryFormats, dateFormats, h1, h2, h3, h4]

/-- Witness for C6 at the concrete inputs of the spec's Scenario F:
`yearDelta=1`, value `"2020-01-01"`, "now" fixed at 2025, gives FAIL
(difference 5 > 1); the same value parses under the first format. -/
theorem C6_date_within_year_rule_witness :
    (applyRule (fun _ _ => false) 2025
      { id := "DT1", description := "recent date", rule_type := "date_within_year",
        target := some { source := .portal, field := "issue_date" },
        year_delta := some 1 }
      [("issue_date", .str "2020-01-01")] []).status = .FAIL ∧
    parseDate "2020-01-01" = .ok ⟨2020, 1, 1⟩ := by
  constructor
  · have h := (C6_date_within_year_rule (fun _ _ => false) 2025
      { id := "DT1", description := "recent date", rule_type := "date_within_year",
        target := some { source := .portal, field := "issue_date" },
        year_delta := some 1 }
      [("issue_date", .str "2020-01-01")] []
      { source := .portal, field := "issue_date" }
      (.str "2020-01-01") "portal.issue_date"
      rfl rfl rfl).2.2.1 rfl ⟨2020, 1, 1⟩ rfl
    rw [h]
    decide
  · exact (C6_date_within_year_rule (fun _ _ => false) 2025
      { id := "DT1", description := "recent date", rule_type := "date_within_year",
        target := some { source := .portal, field := "issue_date" },
        year_delta := some 1 }
      [("issue_date", .str "2020-01-01")] []
      { source := .portal, field := "issue_date" }
      (.str "2020-01-01") "portal.issue_date"
      rfl rfl rfl).2.2.2.1 "2020-01-01" ⟨2020, 1, 1⟩ rfl

/-- C10: a flags_match rule whose declared flag expectations all have
`expected = false` PASSES even when the named document type is entirely
absent from `docs_by_type`: the absent document resolves to an empty field
namespace, each absent field coerces to boolean false, matching the
expectation, so no mismatch is recorded. -/
theorem C10_flags_match_absent_doc (reMatch : String → String → Bool)
    (nowYear : Nat) (rule : CrossSourceRule) (portal_json : PyDict)
    (docs_by_type : List (String × PyDict)) (t : FieldRef) (dt : String)
    (fs : List FlagExpectation)
    (htype : rule.rule_type = "flags_match")
    (ht : rule.target = some t) (hdt : t.doc_type = some dt) (hne : dt ≠ "")
    (hf : rule.flags = some fs) (hfs : fs.isEmpty = false)
    (hall : ∀ fl ∈ fs, fl.expected = false)
    (habsent : docs_by_type.find? (fun kv => kv.1 == dt) = Option.none) :
    applyRule reMatch nowYear rule portal_json docs_by_type =
      { rule_id := rule.id, description := rule.description,
        severity := rule.severity, status := .PASS,
        message := "All required flags present for " ++ dt } := by
  have hdoc : lookupDoc docs_by_type dt = [] := by
    simp [lookupDoc, habsent]
  have hmm : flagsMismatches fs [] = [] := by
    rw [flagsMismatches, List.filterMap_eq_nil_iff]
    intro fl hfl
    simp [dictGet, dictGet?, truthy, hall fl hfl]
  simp [applyRule, evalRule, htype, ruleFlagsMatch, ht, hdt, hf, hfs, hne,
    hdoc, dictGet?, ruleFlagsMatch.flagsResult, hmm]

/-- Witness for C10 at concrete inputs: two all-false flag expectations
against a document type absent from the run's documents yield PASS. -/
theorem C10_flags_match_absent_doc_witness :
    applyRule (fun _ _ => false) 2025
      { id := "FL1", description := "no sanction flags", rule_type := "flags_match",
        target := some { source := .doc, field := "", doc_type := some "nda" },
        flags := some [{ field := "sanctioned", expected := false },
                       { field := "blacklisted", expected := false }] }
      [] [("other_doc", [("x", .int 1)])] =
      { rule_id := "FL1", description := "no sanction flags",
        severity := .error, status := .PASS,
        message := "All required flags present for " ++ "nda" } :=
  C10_flags_match_absent_doc (fun _ _ => false) 2025
    { id := "FL1", description := "no sanction flags", rule_type := "flags_match",
      target := some { source := .doc, field := "", doc_type := some "nda" },
      flags := some [{ field := "sanctioned", expected := false },
                     { field := "blacklisted", expected := false }] }
    [] [("other_doc", [("x", .int 1)])]
    { source := .doc, field := "", doc_type := some "nda" } "nda"
    [{ field := "sanctioned", expected := false },
     { field := "blacklisted", expected := false }]
    rfl rfl rfl (by decide) rfl rfl
    (by intro fl hfl; cases hfl with
        | head => rfl
        | tail _ h2 => cases h2 with
          | head => rfl
          | tail _ h3 => cases h3)
    rfl

/-- C4 counterexample: with a `page_count_between` rule
(`minPages=1, maxPages=5`) and a document whose `pages` list is present
but empty while `page_count` is 3, the claim's count (length of the
present `pages` list, i.e. 0) would violate `1 <= count`, yet the code
PASSES because a falsy `pages` value falls through to `page_count`. -/
theorem C4_page_count_rule_counterexample :
    (applyRule (fun _ _ => false) 2025
      { id := "PC1", description := "page count", rule_type := "page_count_between",
        target := some { source := .doc, field := "", doc_type := some "nda" },
        min_pages := some 1, max_pages := some 5 }
      [] [("nda", [("pages", .list []), ("page_count", .int 3)])]).status = .PASS ∧
    dictGet (lookupDoc [("nda", [("pages", .list []), ("page_count", .int 3)])] "nda")
      "pages" = .list [] ∧
    ¬ ((1 : Int) ≤ (([] : List Value).length : Int)) :=
  ⟨rfl, rfl, by decide⟩

/-- C4 (amended): a `page_count_between` rule with no `target.docType`
raises a config error (which the dispatcher converts to a FAIL result);
otherwise the page count is the length of the document's `pages` list if
that list is present and non-empty, else the integer cast of `page_count`
(0 when that is absent or falsy; a falsy `pages` value — in particular an
empty `pages` list — falls through to `page_count`), and the rule PASSES
exactly when `minPages <= count <= maxPages`, `minPages` defaulting to 0
and `maxPages` to the effectively unbounded `10^9` when absent or 0. -/
theorem C4_page_count_rule (reMatch : String → String → Bool) (nowYear : Nat)
    (rule : CrossSourceRule) (portal_json : PyDict)
    (docs_by_type : List (String × PyDict)) (t : FieldRef)
    (htype : rule.rule_type = "page_count_between") (ht : rule.target = some t) :
    (t.doc_type = Option.none →
      evalRule reMatch nowYear rule portal_json docs_by_type =
        .error "page_count_between rule requires target.doc_type" ∧
      applyRule reMatch nowYear rule portal_json docs_by_type =
        { rule_id := rule.id, description := rule.description,
          severity := rule.severity, status := .FAIL,
          message := "Exception while applying rule: "
            ++ "page_count_between rule requires target.doc_type" }) ∧
    (∀ dt, t.doc_type = some dt → dt ≠ "" →
      ∀ n, pageCountOf (lookupDoc docs_by_type dt) = .ok n →
      (applyRule reMatch nowYear rule portal_json docs_by_type).status =
        (if rule.min_pages.getD 0 ≤ n ∧
            n ≤ (match rule.max_pages with
                 | some m => if m = 0 then 1000000000 else m
                 | Option.none => 1000000000)
         then .PASS else .FAIL)) ∧
    (∀ doc : PyDict, ∀ xs : List Value, dictGet doc "pages" = .list xs → xs ≠ [] →
      pageCountOf doc = .ok (xs.length : Int)) ∧
    (∀ doc : PyDict, truthy (dictGet doc "pages") = false →
      ∀ m : Int, dictGet doc "page_count" = .int m → pageCountOf doc = .ok m) ∧
    (∀ doc : PyDict, truthy (dictGet doc "pages") = false →
      truthy (dictGet doc "page_count") = false → pageCountOf doc = .ok 0) := by
  refine ⟨?_, ?_, ?_, ?_, ?_⟩
  · intro hnodt
    constructor
    · simp [evalRule, htype, rulePageCount, ht, hnodt]
    · simp [applyRule, evalRule, htype, rulePageCount, ht, hnodt]
  · intro dt hdt hne n hcount
    by_cases hcmp : rule.min_pages.getD 0 ≤ n ∧
        n ≤ (match rule.max_pages with
             | some m => if m = 0 then 1000000000 else m
             | Option.none => 1000000000) <;>
      simp [applyRule, evalRule, htype, rulePageCount, ht, hdt, hne, hcount,
        exceptOkBind, exceptPure, hcmp]
  · intro doc xs hxs hne
    have hx : xs.isEmpty = false := by
      cases xs with
      | nil => exact absurd rfl hne
      | cons a as => rfl
    simp [pageCountOf, pyOr, hxs, truthy, hx]
  · intro doc hpages m hpc
    have hOr : pyOr (dictGet doc "pages") (dictGet doc "page_count")
        = dictGet doc "page_count" := by
      simp [pyOr, hpages]
    by_cases hm : m = 0
    · subst hm
      simp only [pageCountOf]
      rw [hOr, hpc]
      rfl
    · simp only [pageCountOf]
      rw [hOr, hpc]
      simp [pyOr, truthy, pyInt, hm]
  · intro doc hpages hpc
    have hOr : pyOr (dictGet doc "pages") (dictGet doc "page_count")
        = dictGet doc "page_count" := by
      simp [pyOr, hpages]
    cases hval : dictGet doc "page_count" with
    | none =>
      simp only [pageCountOf]
      rw [hOr, hval]
      rfl
    | str s =>
      rw [hval] at hpc
      have hs : s = "" := by
        by_contra hne
        simp [truthy, hne] at hpc
      subst hs
      simp only [pageCountOf]
      rw [hOr, hval]
      rfl
    | int n =>
      rw [hval] at hpc
      have hn : n = 0 := by
        by_contra hne
        simp [truthy, hne] at hpc
      subst hn
      simp only [pageCountOf]
      rw [hOr, hval]
      rfl
    | bool b =>
      rw [hval] at hpc
      have hb : b = false := by
        simp [truthy] at hpc
        exact hpc
      subst hb
      simp only [pageCountOf]
      rw [hOr, hval]
      rfl
    | list xs =>
      rw [hval] at hpc
      have hx : xs = [] := by
        cases hlist : xs with
        | nil => rfl
        | cons a as =>
          rw [hlist] at hpc
          simp [truthy] at hpc
      subst hx
      simp only [pageCountOf]
      rw [hOr, hval]
      rfl
    | dict kvs =>
      rw [hval] at hpc
      have hk : kvs = [] := by
        cases hlist : kvs with
        | nil => rfl
        | cons a as =>
          rw [hlist] at hpc
          simp [truthy] at hpc
      subst hk
      simp only [pageCountOf]
      rw [hOr, hval]
      rfl

/-- Witness for the amended C4 at the concrete inputs of the spec's
Scenario E (`minPages=1, maxPages=5`; a three-element `pages` list PASSES,
an empty document FAILs with count 0) plus the missing-docType config
error. -/
theorem C4_page_count_rule_witness :
    (applyRule (fun _ _ => false) 2025
      { id := "PC2", description := "page count", rule_type := "page_count_between",
        target := some { source := .doc, field := "", doc_type := some "nda" },
        min_pages := some 1, max_pages := some 5 }
      [] [("nda", [("pages", .list [.int 1, .int 2, .int 3])])]).status = .PASS ∧
    (applyRule (fun _ _ => false) 2025
      { id := "PC2", description := "page count", rule_type := "page_count_between",
        target := some { source := .doc, field := "", doc_type := some "nda" },
        min_pages := some 1, max_pages := some 5 }
      [] [("nda", [])]).status = .FAIL ∧
    applyRule (fun _ _ => false) 2025
      { id := "PC3", description := "page count", rule_type := "page_count_between",
        target := some { source := .doc, field := "" },
        min_pages := some 1 } [] [] =
      { rule_id := "PC3", description := "page count",
        severity := .error, status := .FAIL,
        message := "Exception while applying rule: "
          ++ "page_count_between rule requires target.doc_type" } := by
  refine ⟨?_, ?_, ?_⟩
  · have h := (C4_page_count_rule (fun _ _ => false) 2025
      { id := "PC2", description := "page count", rule_type := "page_count_between",
        target := some { source := .doc, field := "", doc_type := some "nda" },
        min_pages := some 1, max_pages := some 5 }
      [] [("nda", [("pages", .list [.int 1, .int 2, .int 3])])]
      { source := .doc, field := "", doc_type := some "nda" }
      rfl rfl).2.1 "nda" rfl (by decide) 3 rfl
    rw [h]
    decide
  · have h := (C4_page_count_rule (fun _ _ => false) 2025
      { id := "PC2", description := "page count", rule_type := "page_count_between",
        target := some { source := .doc, field := "", doc_type := some "nda" },
        min_pages := some 1, max_pages := some 5 }
      [] [("nda", [])]
      { source := .doc, field := "", doc_type := some "nda" }
      rfl rfl).2.1 "nda" rfl (by decide) 0 rfl
    rw [h]
    decide
  · exact ((C4_page_count_rule (fun _ _ => false) 2025
      { id := "PC3", description := "page count", rule_type := "page_count_between",
        target := some { source := .doc, field := "" },
        min_pages := some 1 } [] []
      { source := .doc, field := "" }
      rfl rfl).1 rfl).2

/-- C8: no evaluator ever produces a WARNING result, so for every input
and configuration the report returned by `validate()` contains no result
with status WARNING and its summary status is always PASS or FAIL, never
WARNING. -/
theorem C8_no_warning_ever (reMatch : String → String → Bool) (nowYear : Nat)
    (cfg : ValidationConfig) (portal_json : PyDict)
    (docs_by_type : List (String × PyDict)) :
    (∀ r ∈ (validate reMatch nowYear cfg portal_json docs_by_type).results,
      r.status ≠ .WARNING) ∧
    ((validate reMatch nowYear cfg portal_json docs_by_type).summary_status = .PASS ∨
     (validate reMatch nowYear cfg portal_json docs_by_type).summary_status = .FAIL) := by
  have hres : ∀ r ∈ (validate reMatch nowYear cfg portal_json docs_by_type).results,
      r.status ≠ .WARNING := by
    intro r hmem
    have hm2 : r ∈ cfg.portal_field_validations.filterMap
        (fun fv => validatePortalField reMatch fv.1 fv.2 portal_json) ++
        cfg.cross_source_rules.map
        (fun rule => applyRule reMatch nowYear rule portal_json docs_by_type) := hmem
    rcases List.mem_append.mp hm2 with hmem2 | hmem2
    · obtain ⟨fv, _, heq⟩ := List.mem_filterMap.mp hmem2
      exact validatePortalField_no_warning reMatch fv.1 fv.2 portal_json r heq
    · obtain ⟨rule, _, heq⟩ := List.mem_map.mp hmem2
      rw [← heq]
      exact applyRule_no_warning reMatch nowYear rule portal_json docs_by_type
  refine ⟨hres, ?_⟩
  cases hagg : (validate reMatch nowYear cfg portal_json docs_by_type).summary_status with
  | PASS => exact Or.inl rfl
  | FAIL => exact Or.inr rfl
  | WARNING =>
    obtain ⟨_, r, hr, hw⟩ :=
      ((aggregateStatus_cases
        (validate reMatch nowYear cfg portal_json docs_by_type).results).2.1).mp hagg
    exact absurd hw (hres r hr)
  | SKIP =>
    exact absurd hagg
      (aggregateStatus_ne_SKIP
        (validate reMatch nowYear cfg portal_json docs_by_type).results)

/-- Witness for C8 at a concrete run: a config with one required portal
field (missing from the payload) and one unknown-type cross rule produces
a first result that is not WARNING, and a FAIL (not WARNING) summary. -/
theorem C8_no_warning_ever_witness :
    (validatePortalField (fun _ _ => true) "email"
        { required := true } []).getD
        { rule_id := "", description := "", severity := .error,
          status := .WARNING, message := "" } ∈
      (validate (fun _ _ => true) 2025
        { portal_field_validations := [("email", { required := true })],
          cross_source_rules :=
            [{ id := "U1", description := "unknown", rule_type := "mystery" }] }
        [] []).results ∧
    ((validatePortalField (fun _ _ => true) "email"
        { required := true } []).getD
        { rule_id := "", description := "", severity := .error,
          status := .WARNING, message := "" }).status ≠ .WARNING ∧
    ((validate (fun _ _ => true) 2025
        { portal_field_validations := [("email", { required := true })],
          cross_source_rules :=
            [{ id := "U1", description := "unknown", rule_type := "mystery" }] }
        [] []).summary_status = .PASS ∨
     (validate (fun _ _ => true) 2025
        { portal_field_validations := [("email", { required := true })],
          cross_source_rules :=
            [{ id := "U1", description := "unknown", rule_type := "mystery" }] }
        [] []).summary_status = .FAIL) := by
  have hmem : (validatePortalField (fun _ _ => true) "email"
      { required := true } []).getD
      { rule_id := "", description := "", severity := .error,
        status := .WARNING, message := "" } ∈
      (validate (fun _ _ => true) 2025
        { portal_field_validations := [("email", { required := true })],
          cross_source_rules :=
            [{ id := "U1", description := "unknown", rule_type := "mystery" }] }
        [] []).results := List.Mem.head _
  refine ⟨hmem, ?_, ?_⟩
  · exact (C8_no_warning_ever (fun _ _ => true) 2025
      { portal_field_validations := [("email", { required := true })],
        cross_source_rules :=
          [{ id := "U1", description := "unknown", rule_type := "mystery" }] }
      [] []).1 _ hmem
  · exact (C8_no_warning_ever (fun _ _ => true) 2025
      { portal_field_validations := [("email", { required := true })],
        cross_source_rules :=
          [{ id := "U1", description := "unknown", rule_type := "mystery" }] }
      [] []).2

/-- C9: the per-field response surfaces only results whose rule id starts
with `PORTAL_FIELD_` (filtering the report to those results changes
nothing, and every surfaced entry traces back to such a result); a
surfaced PASS gets `is_valid = true` and no failure reason, a surfaced
non-PASS gets `is_valid = false` and the reason derived from the rule-id
prefix by the fixed mapping REQUIRED→MISSING_REQUIRED,
PATTERN→PATTERN_MISMATCH, IN_SET→INVALID_VALUE, MIN_LEN→MIN_LENGTH,
MAX_LEN→MAX_LENGTH, anything else→GENERIC_FAIL. -/
theorem C9_per_field_response (report : ValidationReport) (portal_json : PyDict) :
    (portalReportToFieldResults report portal_json =
      portalReportToFieldResults
        { summary_status := report.summary_status,
          results := report.results.filter
            (fun r => pyStartsWith r.rule_id "PORTAL_FIELD_") } portal_json) ∧
    (∀ fr ∈ portalReportToFieldResults report portal_json,
      ∃ r ∈ report.results, pyStartsWith r.rule_id "PORTAL_FIELD_" = true ∧
        fieldResultOf portal_json r = some (fr.field_name, fr)) ∧
    (∀ res k fr, fieldResultOf portal_json res = some (k, fr) →
      (res.status = .PASS → fr.is_valid = true ∧ fr.failure_reason = Option.none) ∧
      (res.status ≠ .PASS → fr.is_valid = false ∧
        fr.failure_reason = some (failureReasonFromRuleId res.rule_id))) ∧
    (∀ fld : String,
      failureReasonFromRuleId ("PORTAL_FIELD_REQUIRED::" ++ fld) = "MISSING_REQUIRED" ∧
      failureReasonFromRuleId ("PORTAL_FIELD_PATTERN::" ++ fld) = "PATTERN_MISMATCH" ∧
      failureReasonFromRuleId ("PORTAL_FIELD_IN_SET::" ++ fld) = "INVALID_VALUE" ∧
      failureReasonFromRuleId ("PORTAL_FIELD_MIN_LEN::" ++ fld) = "MIN_LENGTH" ∧
      failureReasonFromRuleId ("PORTAL_FIELD_MAX_LEN::" ++ fld) = "MAX_LENGTH") ∧
    (∀ rid : String,
      (match pySplitOnce rid "::" with
       | some ab => ab.1
       | Option.none => rid) ∉
        (["PORTAL_FIELD_REQUIRED", "PORTAL_FIELD_PATTERN", "PORTAL_FIELD_IN_SET",
          "PORTAL_FIELD_MIN_LEN", "PORTAL_FIELD_MAX_LEN"] : List String) →
      failureReasonFromRuleId rid = "GENERIC_FAIL") := by
  refine ⟨?_, ?_, ?_, ?_, ?_⟩
  · unfold portalReportToFieldResults
    rw [buildByField_filter]
  · intro fr hfr
    unfold portalReportToFieldResults at hfr
    obtain ⟨⟨k, fr2⟩, hkv, heq⟩ := List.mem_map.mp hfr
    simp only at heq
    subst heq
    rcases mem_buildByField portal_json report.results [] _ hkv with h | ⟨r, hr, he⟩
    · exact absurd h (List.not_mem_nil _)
    · obtain ⟨hp, hk, _, _⟩ := fieldResultOf_spec portal_json r k fr2 he
      refine ⟨r, hr, hp, ?_⟩
      rw [hk]
      exact he
  · intro res k fr h
    obtain ⟨_, _, h1, h2⟩ := fieldResultOf_spec portal_json res k fr h
    exact ⟨h1, h2⟩
  · intro fld
    refine ⟨?_, ?_, ?_, ?_, ?_⟩ <;>
      unfold failureReasonFromRuleId
    · rw [show ("PORTAL_FIELD_REQUIRED::" ++ fld : String) =
          "PORTAL_FIELD_REQUIRED" ++ "::" ++ fld from rfl,
        pySplitOnce_prefix "PORTAL_FIELD_REQUIRED" fld (by decide)]
      rfl
    · rw [show ("PORTAL_FIELD_PATTERN::" ++ fld : String) =
          "PORTAL_FIELD_PATTERN" ++ "::" ++ fld from rfl,
        pySplitOnce_prefix "PORTAL_FIELD_PATTERN" fld (by decide)]
      rfl
    · rw [show ("PORTAL_FIELD_IN_SET::" ++ fld : String) =
          "PORTAL_FIELD_IN_SET" ++ "::" ++ fld from rfl,
        pySplitOnce_prefix "PORTAL_FIELD_IN_SET" fld (by decide)]
      rfl
    · rw [show ("PORTAL_FIELD_MIN_LEN::" ++ fld : String) =
          "PORTAL_FIELD_MIN_LEN" ++ "::" ++ fld from rfl,
        pySplitOnce_prefix "PORTAL_FIELD_MIN_LEN" fld (by decide)]
      rfl
    · rw [show ("PORTAL_FIELD_MAX_LEN::" ++ fld : String) =
          "PORTAL_FIELD_MAX_LEN" ++ "::" ++ fld from rfl,
        pySplitOnce_prefix "PORTAL_FIELD_MAX_LEN" fld (by decide)]
      rfl
  · intro rid hnot
    simp only [List.mem_cons, List.not_mem_nil, or_false, not_or] at hnot
    obtain ⟨n1, n2, n3, n4, n5⟩ := hnot
    unfold failureReasonFromRuleId
    cases hs : pySplitOnce rid "::" with
    | none =>
      rw [hs] at n1 n2 n3 n4 n5
      simp [n1, n2, n3, n4, n5]
    | some ab =>
      rw [hs] at n1 n2 n3 n4 n5
      simp only at n1 n2 n3 n4 n5
      simp [n1, n2, n3, n4, n5]

/-- Witness for C9 at a concrete report: a cross-source result is not
surfaced, the REQUIRED failure maps to MISSING_REQUIRED with
`is_valid = false`, the PASS result gets `is_valid = true` with no reason,
and an unknown prefix maps to GENERIC_FAIL. -/
theorem C9_per_field_response_witness :
    portalReportToFieldResults
      { summary_status := .FAIL,
        results :=
          [{ rule_id := "PORTAL_FIELD_REQUIRED::email", description := "",
             severity := .error, status := .FAIL, message := "" },
           { rule_id := "CROSS_RULE_1", description := "",
             severity := .error, status := .FAIL, message := "" },
           { rule_id := "PORTAL_FIELD_OK::name", description := "",
             severity := .warning, status := .PASS, message := "" }] }
      [("name", .str "Bob")] =
      portalReportToFieldResults
        { summary_status := .FAIL,
          results :=
            [{ rule_id := "PORTAL_FIELD_REQUIRED::email", description := "",
               severity := .error, status := .FAIL, message := "" },
             { rule_id := "PORTAL_FIELD_OK::name", description := "",
               severity := .warning, status := .PASS, message := "" }] }
        [("name", .str "Bob")] ∧
    failureReasonFromRuleId ("PORTAL_FIELD_REQUIRED::" ++ "email") = "MISSING_REQUIRED" ∧
    failureReasonFromRuleId "CROSS_RULE_1" = "GENERIC_FAIL" ∧
    (∀ fr2, fieldResultOf [("name", .str "Bob")]
        { rule_id := "PORTAL_FIELD_REQUIRED::email", description := "",
          severity := .error, status := .FAIL, message := "" } =
        some ("email", fr2) →
      fr2.is_valid = false ∧
      fr2.failure_reason = some "MISSING_REQUIRED") ∧
    (∀ fr3, fieldResultOf [("name", .str "Bob")]
        { rule_id := "PORTAL_FIELD_OK::name", description := "",
          severity := .warning, status := .PASS, message := "" } =
        some ("name", fr3) →
      fr3.is_valid = true ∧ fr3.failure_reason = Option.none) := by
  refine ⟨?_, ?_, ?_, ?_, ?_⟩
  · have h := (C9_per_field_response
      { summary_status := .FAIL,
        results :=
          [{ rule_id := "PORTAL_FIELD_REQUIRED::email", description := "",
             severity := .error, status := .FAIL, message := "" },
           { rule_id := "CROSS_RULE_1", description := "",
             severity := .error, status := .FAIL, message := "" },
           { rule_id := "PORTAL_FIELD_OK::name", description := "",
             severity := .warning, status := .PASS, message := "" }] }
      [("name", .str "Bob")]).1
    rw [h]
    rfl
  · exact ((C9_per_field_response
      { summary_status := .FAIL, results := [] } [("name", .str "Bob")]).2.2.2.1
      "email").1
  · exact (C9_per_field_response
      { summary_status := .FAIL, results := [] } [("name", .str "Bob")]).2.2.2.2
      "CROSS_RULE_1" (by decide)
  · intro fr2 hfr2
    have h := ((C9_per_field_response
      { summary_status := .FAIL, results := [] } [("name", .str "Bob")]).2.2.1
      { rule_id := "PORTAL_FIELD_REQUIRED::email", description := "",
        severity := .error, status := .FAIL, message := "" }
      "email" fr2 hfr2).2 (by decide)
    exact ⟨h.1, by rw [h.2]; rfl⟩
  · intro fr3 hfr3
    exact ((C9_per_field_response
      { summary_status := .FAIL, results := [] } [("name", .str "Bob")]).2.2.1
      { rule_id := "PORTAL_FIELD_OK::name", description := "",
        severity := .warning, status := .PASS, message := "" }
      "name" fr3 hfr3).1 rfl

end VRM
